import Mathlib

/-!
# Smart-home controller (`esp32-nuttx/main.c`): device registry, command router,
state publisher and connection supervisor

Modelling conventions.

* A C `char` is a Lean `Char` (the program only copies and compares characters, so the
  size of the alphabet plays no role; every concrete input below is ASCII, one byte per
  character).  A `List Char` standing for a `const char *` argument or for a `char[N]`
  field holds the characters in front of the terminator.  Raw memory that is read with an
  explicit length (the MQTT payload) is a `List Char` that may contain `NUL`; `cstr` reads
  such memory as a C string.
* `g_devices[0 .. g_num_devices)` is the list `State.g_devices`; `g_num_devices` is its
  length.
* Calls into the transport and the mutex are recorded as a trace of `Event`s; the return
  codes of `mqtt_connect` and `mqtt_subscribe` are parameters of `mqtt_init`.  Console
  output (`printf`) is not part of the model.
-/

namespace SmartHome

/-! ## C strings -/

/-- The string terminator. -/
def NUL : Char := Char.ofNat 0

/-- The C string held by a buffer: the characters in front of the first terminator. -/
def cstr (buf : List Char) : List Char :=
  buf.takeWhile (fun c => c != NUL)

/-- The string left in a buffer of `size` bytes by `snprintf(buf, size, ...)` when the
complete output would be `formatted`: at most `size - 1` characters are stored. -/
def snprintf (size : Nat) (formatted : List Char) : List Char :=
  formatted.take (size - 1)

/-- The string left in `dst` by `strncpy(dst, src, n); dst[n] = 0;` : copying stops at the
terminator of `src` or after `n` characters. -/
def strncpy (src : List Char) (n : Nat) : List Char :=
  (cstr src).take n

/-- Result of matching a literal stretch of a `scanf` format against the input. -/
inductive Scan where
  | matched (rest : List Char)
  | mismatch
  | eof
  deriving DecidableEq, Repr

/-- Match the ordinary characters `lit` of a `scanf` format: each must equal the next
input character; the input running out is an input failure. -/
def match_literal : List Char → List Char → Scan
  | [], inp => Scan.matched inp
  | _ :: _, [] => Scan.eof
  | c :: cs, i :: inp => if c = i then match_literal cs inp else Scan.mismatch

/-- The characters consumed by the conversion `%<width>[^/]`: the longest run of
characters other than `/`, cut at `width`. -/
def scan_not_slash (width : Nat) (inp : List Char) : List Char :=
  (inp.takeWhile (fun c => c != '/')).take width

/-- Model of `sscanf(topic, "home/devices/%31[^/]/control", device_id)`: the return value
and the string stored in `device_id`.  The return value counts the conversions assigned;
it is `-1` (EOF) when the input ends before the first conversion, `0` when the literal or
the scan set fails to match, and `1` as soon as `%31[^/]` has stored a string, whatever
the outcome of matching the trailing `/control`. -/
def sscanf_topic (topic : List Char) : Int × List Char :=
  match match_literal "home/devices/".toList topic with
  | Scan.eof => (-1, [])
  | Scan.mismatch => (0, [])
  | Scan.matched rest =>
    match rest with
    | [] => (-1, [])
    | _ :: _ =>
      let device_id := scan_not_slash 31 rest
      if device_id = [] then (0, [])
      else
        match match_literal "/control".toList (rest.drop device_id.length) with
        | Scan.matched _ => (1, device_id)
        | Scan.mismatch => (1, device_id)
        | Scan.eof => (1, device_id)

/-! ## Data model -/

/-- The record `device_t`; each text field holds the string stored in its array. -/
structure device_t where
  id : List Char
  name : List Char
  type : List Char
  room_id : List Char
  is_on : Bool
  value : List Char
  deriving DecidableEq, Repr

/-- Capacity of `g_devices`. -/
def MAX_DEVICES : Nat := 16

/-- Success return code. -/
def OK : Int := 0

/-- The errno value `ENODEV`. -/
def ENODEV : Int := 19

/-- The globals: the registry `g_devices[0 .. g_num_devices)` and `g_mqtt_connected`. -/
structure State where
  g_devices : List device_t
  g_mqtt_connected : Bool
  deriving DecidableEq, Repr

/-- The counter `g_num_devices`. -/
def State.g_num_devices (s : State) : Nat := s.g_devices.length

/-- Observable actions, in program order: `pthread_mutex_lock` / `pthread_mutex_unlock`
on `g_devices_mutex`, and the calls `mqtt_connect`, `mqtt_subscribe`, `mqtt_publish`. -/
inductive Event where
  | lock
  | unlock
  | connect
  | subscribe (filter : List Char)
  | publish (topic : List Char) (payload : List Char)
  deriving DecidableEq, Repr

/-- Outcome of a `void` function: the globals afterwards and the actions performed. -/
structure Effect where
  state : State
  trace : List Event
  deriving DecidableEq, Repr

/-- Outcome of an `int` function: globals, actions, return value. -/
structure Result where
  state : State
  trace : List Event
  ret : Int
  deriving DecidableEq, Repr

/-- The `(topic, payload)` pairs handed to `mqtt_publish`, in order. -/
def publishes : List Event → List (List Char × List Char)
  | [] => []
  | Event.publish t p :: es => (t, p) :: publishes es
  | _ :: es => publishes es

/-! ## State publisher -/

/-- The complete output of the topic format `"home/devices/%s/state"`. -/
def state_topic (id : List Char) : List Char :=
  "home/devices/".toList ++ id ++ "/state".toList

/-- The complete output of the payload format of `publish_device_state`. -/
def state_record (d : device_t) : List Char :=
  "\x7b\"id\":\"".toList ++ d.id ++ "\",\"name\":\"".toList ++ d.name ++
  "\",\"type\":\"".toList ++ d.type ++ "\",\"room_id\":\"".toList ++ d.room_id ++
  "\",\"is_on\":".toList ++ (if d.is_on then "true".toList else "false".toList) ++
  ",\"value\":\"".toList ++ d.value ++ "\"\x7d".toList

/-- Model of `publish_device_state`: nothing when `g_mqtt_connected` is false, otherwise one
`mqtt_publish` of the 256-byte payload buffer under the 128-byte topic buffer (the
published length is `strlen(payload)`, the whole stored string). -/
def publish_device_state (g_mqtt_connected : Bool) (device : device_t) : List Event :=
  if !g_mqtt_connected then []
  else
    let topic := snprintf 128 (state_topic device.id)
    let payload := snprintf 256 (state_record device)
    [Event.publish topic payload]

/-! ## Device registry -/

/-- The five records written by `init_devices`, in the order they are written.  (Line 314
of the source is a damaged repetition of the `name` and `type` assignments of front_lock
that stand right before it; the record is read from the intact lines.) -/
def startup_devices : List device_t :=
  [ { id := "living_light".toList, name := "Living Room Light".toList,
      type := "LIGHT".toList, room_id := "living".toList, is_on := false, value := [] },
    { id := "kitchen_light".toList, name := "Kitchen Light".toList,
      type := "LIGHT".toList, room_id := "kitchen".toList, is_on := false, value := [] },
    { id := "thermostat".toList, name := "Thermostat".toList,
      type := "THERMOSTAT".toList, room_id := "living".toList, is_on := true,
      value := "72.0".toList },
    { id := "temp_sensor".toList, name := "Temperature Sensor".toList,
      type := "SENSOR".toList, room_id := "bedroom".toList, is_on := true,
      value := "70.0".toList },
    { id := "front_lock".toList, name := "Front Door".toList,
      type := "LOCK".toList, room_id := "entrance".toList, is_on := false, value := [] } ]

/-- Model of `init_devices`: under the mutex, the five records are stored at
`g_devices[g_num_devices ...]` and the counter is advanced; returns `OK`.  The source has
no capacity check: `none` stands for the writes running past `g_devices[MAX_DEVICES]`. -/
def init_devices (s : State) : Option Result :=
  if s.g_num_devices + startup_devices.length ≤ MAX_DEVICES then
    some { state := { s with g_devices := s.g_devices ++ startup_devices },
           trace := [Event.lock, Event.unlock],
           ret := OK }
  else none

/-- The lookup loop of `toggle_device` and `update_device_value`: index and record of the
first device whose `id` compares equal (`strcmp`) to `device_id`. -/
def find_device : List device_t → List Char → Option (Nat × device_t)
  | [], _ => none
  | d :: ds, device_id =>
    if d.id = device_id then some (0, d)
    else
      match find_device ds device_id with
      | none => none
      | some (i, e) => some (i + 1, e)

/-- Model of `toggle_device`: lookup under the mutex, `-ENODEV` when no device matches,
otherwise `is_on` is inverted and the record is published before the mutex is released.
The branches on `type` (`LIGHT`, `LOCK`) only print. -/
def toggle_device (s : State) (device_id : List Char) : Result :=
  match find_device s.g_devices device_id with
  | none => { state := s, trace := [Event.lock, Event.unlock], ret := -ENODEV }
  | some (i, d) =>
    let device : device_t := { d with is_on := !d.is_on }
    { state := { s with g_devices := s.g_devices.set i device },
      trace := [Event.lock] ++ publish_device_state s.g_mqtt_connected device ++
               [Event.unlock],
      ret := OK }

/-- Model of `update_device_value`: same lookup; the new value is what `strncpy` with bound
`sizeof(device->value) - 1 = 31` leaves in the 32-byte field.  The branch on `type`
(`THERMOSTAT`) only prints. -/
def update_device_value (s : State) (device_id value : List Char) : Result :=
  match find_device s.g_devices device_id with
  | none => { state := s, trace := [Event.lock, Event.unlock], ret := -ENODEV }
  | some (i, d) =>
    let device : device_t := { d with value := strncpy value 31 }
    { state := { s with g_devices := s.g_devices.set i device },
      trace := [Event.lock] ++ publish_device_state s.g_mqtt_connected device ++
               [Event.unlock],
      ret := OK }

/-! ## Command router -/

/-- Model of `mqtt_message_callback`; `message` is the `message_len` bytes of the payload.
The payload is cut to `sizeof(msg_copy) - 1 = 127` bytes, terminated and then read as a C
string. -/
def mqtt_message_callback (s : State) (topic message : List Char) : Effect :=
  let scanned := sscanf_topic topic
  if scanned.1 ≠ 1 then { state := s, trace := [] }
  else
    let device_id := scanned.2
    let message_len := if message.length ≥ 128 then 127 else message.length
    let msg_copy := cstr (message.take message_len)
    if msg_copy = "toggle".toList then
      let r := toggle_device s device_id
      { state := r.state, trace := r.trace }
    else if msg_copy.take 6 = "value:".toList then
      let r := update_device_value s device_id (msg_copy.drop 6)
      { state := r.state, trace := r.trace }
    else { state := s, trace := [] }

/-! ## Connection supervisor -/

/-- The loop `for (i = 0; i < g_num_devices; i++) publish_device_state(&g_devices[i])`. -/
def publish_all (g_mqtt_connected : Bool) : List device_t → List Event
  | [] => []
  | d :: ds => publish_device_state g_mqtt_connected d ++ publish_all g_mqtt_connected ds

/-- Model of `mqtt_init`; `connect_ret` and `subscribe_ret` are what `mqtt_connect` and
`mqtt_subscribe` return (the second is only called when the first returned `OK`). -/
def mqtt_init (s : State) (connect_ret subscribe_ret : Int) : Result :=
  if connect_ret ≠ OK then
    { state := s, trace := [Event.connect], ret := connect_ret }
  else if subscribe_ret ≠ OK then
    { state := s,
      trace := [Event.connect, Event.subscribe "home/devices/+/control".toList],
      ret := subscribe_ret }
  else
    let s1 : State := { s with g_mqtt_connected := true }
    { state := s1,
      trace := [Event.connect, Event.subscribe "home/devices/+/control".toList,
                Event.lock] ++ publish_all s1.g_mqtt_connected s1.g_devices ++
               [Event.unlock],
      ret := OK }

/-! ## Reachable states -/

/-- What can happen to the globals after start-up: an inbound message is delivered to the
callback, the sensor thread reports a reading, or the main loop calls `mqtt_init`. -/
inductive Input where
  | message (topic payload : List Char)
  | sensor (value : List Char)
  | reconnect (connect_ret subscribe_ret : Int)
  deriving DecidableEq, Repr

/-- One step of the system. -/
def step (s : State) : Input → Effect
  | Input.message topic payload => mqtt_message_callback s topic payload
  | Input.sensor value =>
    let r := update_device_value s "temp_sensor".toList value
    { state := r.state, trace := r.trace }
  | Input.reconnect connect_ret subscribe_ret =>
    let r := mqtt_init s connect_ret subscribe_ret
    { state := r.state, trace := r.trace }

/-- The globals as the program image holds them: no device, not connected. -/
def empty_state : State := { g_devices := [], g_mqtt_connected := false }

/-- The globals after `init_devices` has run on the initial image. -/
def startup_state : State := { g_devices := startup_devices, g_mqtt_connected := false }

/-- The start-up state with the session established. -/
def connected_startup_state : State :=
  { g_devices := startup_devices, g_mqtt_connected := true }

/-- The globals after running a list of inputs from `s`. -/
def run (s : State) : List Input → State
  | [] => s
  | i :: is => run (step s i).state is

/-- States reachable from the empty registry by one `init_devices` followed by any
sequence of inbound messages, sensor updates and `mqtt_init` calls. -/
inductive Reachable : State → Prop where
  | startup : Reachable startup_state
  | step (s : State) (i : Input) : Reachable s → Reachable (step s i).state

/-- The control topic addressed to `id`. -/
def control_topic (id : List Char) : List Char :=
  "home/devices/".toList ++ id ++ "/control".toList

/-- The ids of the registry, in registry order. -/
def State.ids (s : State) : List (List Char) := s.g_devices.map device_t.id

/-- The fields of a record that no function of the program assigns after start-up. -/
def device_t.static (d : device_t) : List Char × List Char × List Char × List Char :=
  (d.id, d.name, d.type, d.room_id)

/-- Invariant of the reachable states: the registry holds the start-up devices, in order,
up to `is_on` and `value`, and every `value` is a string that fits its 32-byte field. -/
def WellFormed (s : State) : Prop :=
  s.g_devices.map device_t.static = startup_devices.map device_t.static ∧
  ∀ d ∈ s.g_devices, d.value.length ≤ 31 ∧ NUL ∉ d.value

/-! ## Further definitions: field sizes, main loop, subscription filter, lock discipline -/

/-- The sizes of the arrays of `device_t`: `id[32]`, `name[64]`, `type[32]`, `room_id[32]`,
`value[32]` hold strings of at most 31, 63, 31, 31 and 31 characters. -/
def device_t.fits (d : device_t) : Prop :=
  d.id.length ≤ 31 ∧ d.name.length ≤ 63 ∧ d.type.length ≤ 31 ∧ d.room_id.length ≤ 31 ∧
  d.value.length ≤ 31

instance device_t.decidableFits (d : device_t) : Decidable d.fits := by
  unfold device_t.fits
  infer_instance

/-- What the transport's `mqtt_process` does to the globals.  Both globals are `static`, so
the library reaches them only through the callback registered by `mqtt_connect`: the
inbound messages it has received are handed to `mqtt_message_callback` one after the
other. -/
def mqtt_process (s : State) : List (List Char × List Char) → Effect
  | [] => { state := s, trace := [] }
  | (topic, message) :: rest =>
    let e := mqtt_message_callback s topic message
    let r := mqtt_process e.state rest
    { state := r.state, trace := e.trace ++ r.trace }

/-- One iteration of the main loop of `main`: when `g_mqtt_connected` holds,
`mqtt_process(&g_mqtt_client)` is called as a statement, so what it reports
(`_process_ret`) is dropped; otherwise `mqtt_init()` is called, its return value dropped
as well.  `inbound` are the messages `mqtt_process` delivers. -/
def main_loop_iteration (s : State) (inbound : List (List Char × List Char))
    (_process_ret : Int) (connect_ret subscribe_ret : Int) : Effect :=
  if s.g_mqtt_connected then mqtt_process s inbound
  else
    let r := mqtt_init s connect_ret subscribe_ret
    { state := r.state, trace := r.trace }

/-- The levels of a topic: the stretches between the separators `/`. -/
def topic_levels : List Char → List (List Char)
  | [] => [[]]
  | c :: cs =>
    if c = '/' then [] :: topic_levels cs
    else
      match topic_levels cs with
      | [] => [[c]]
      | l :: ls => (c :: l) :: ls

/-- Level-by-level comparison of a subscription filter with a topic. -/
def levels_match : List (List Char) → List (List Char) → Bool
  | [], [] => true
  | f :: fs, l :: ls => (f = "+".toList || f = l) && levels_match fs ls
  | _, _ => false

/-- Modelled from the spec: the transport's matching of a topic against a subscription
filter is not part of the source; the filter level `+` is the "single-level wildcard
matching one path segment", every other level must be equal to the topic's level, and
filter and topic must have the same number of levels. -/
def filter_matches (filter topic : List Char) : Bool :=
  levels_match (topic_levels filter) (topic_levels topic)

/-- No `mqtt_publish` happens while `g_devices_mutex` is held; `held` tells whether the
mutex is held at the start of the trace. -/
def no_publish_while_locked (held : Bool) : List Event → Bool
  | [] => true
  | Event.lock :: es => no_publish_while_locked true es
  | Event.unlock :: es => no_publish_while_locked false es
  | Event.publish _ _ :: es => !held && no_publish_while_locked held es
  | _ :: es => no_publish_while_locked held es

/-- Every `mqtt_publish` happens while `g_devices_mutex` is held, and the mutex is not held
when the trace ends. -/
def every_publish_while_locked (held : Bool) : List Event → Bool
  | [] => !held
  | Event.lock :: es => every_publish_while_locked true es
  | Event.unlock :: es => every_publish_while_locked false es
  | Event.publish _ _ :: es => held && every_publish_while_locked held es
  | _ :: es => every_publish_while_locked held es

/-- The payloads handed to `mqtt_publish`, in order. -/
def published_payloads (es : List Event) : List (List Char) :=
  (publishes es).map Prod.snd

/-! ## Lookup and update lemmas -/

theorem find_device_some {ds : List device_t} {device_id : List Char} {i : Nat} {d : device_t}
    (h : find_device ds device_id = some (i, d)) : ds[i]? = some d ∧ d.id = device_id := by
  induction ds generalizing i with
  | nil => simp [find_device] at h
  | cons x xs ih =>
    unfold find_device at h
    split at h
    · rename_i hx
      simp only [Option.some.injEq, Prod.mk.injEq] at h
      obtain ⟨rfl, rfl⟩ := h
      exact ⟨by simp, hx⟩
    · split at h
      · simp at h
      · rename_i j e hj
        simp only [Option.some.injEq, Prod.mk.injEq] at h
        obtain ⟨rfl, rfl⟩ := h
        have := ih hj
        exact ⟨by simpa using this.1, this.2⟩

theorem find_device_none {ds : List device_t} {device_id : List Char} :
    find_device ds device_id = none ↔ device_id ∉ ds.map device_t.id := by
  induction ds with
  | nil => simp [find_device]
  | cons x xs ih =>
    unfold find_device
    by_cases hx : x.id = device_id
    · simp [hx]
    · simp only [hx, if_false, List.map_cons, List.mem_cons, not_or]
      constructor
      · intro h
        refine ⟨fun h' => hx h'.symm, ?_⟩
        apply ih.1
        split at h
        · assumption
        · simp at h
      · intro h
        rw [ih.2 h.2]

theorem find_device_of_mem {ds : List device_t} {device_id : List Char}
    (h : device_id ∈ ds.map device_t.id) :
    ∃ i d, find_device ds device_id = some (i, d) := by
  cases hf : find_device ds device_id with
  | none => exact absurd h (find_device_none.1 hf)
  | some p => exact ⟨p.1, p.2, rfl⟩

theorem map_static_set {ds : List device_t} {i : Nat} {d e : device_t}
    (h : ds[i]? = some d) (he : e.static = d.static) :
    (ds.set i e).map device_t.static = ds.map device_t.static := by
  induction ds generalizing i with
  | nil => simp
  | cons x xs ih =>
    cases i with
    | zero =>
      simp at h
      subst h
      simp [he]
    | succ j =>
      simp at h
      simp [ih h]

theorem mem_set_cases {ds : List device_t} {i : Nat} {e x : device_t}
    (h : x ∈ ds.set i e) : x = e ∨ x ∈ ds := by
  rcases List.mem_or_eq_of_mem_set h with h | h
  · exact Or.inr h
  · exact Or.inl h

/-! ## C string lemmas -/

theorem cstr_nul_free (buf : List Char) : NUL ∉ cstr buf := by
  intro h
  have := List.mem_takeWhile_imp h
  simp at this

theorem cstr_of_nul_free {l : List Char} (h : NUL ∉ l) : cstr l = l := by
  unfold cstr
  rw [List.takeWhile_eq_self_iff]
  intro c hc
  have : c ≠ NUL := fun e => h (e ▸ hc)
  simpa using this

theorem strncpy_length (src : List Char) (n : Nat) : (strncpy src n).length ≤ n := by
  simp [strncpy, List.length_take]

theorem strncpy_nul_free (src : List Char) (n : Nat) : NUL ∉ strncpy src n :=
  fun h => cstr_nul_free src (List.mem_of_mem_take h)

theorem strncpy_of_nul_free {t : List Char} (h : NUL ∉ t) (n : Nat) :
    strncpy t n = t.take n := by
  simp [strncpy, cstr_of_nul_free h]

/-! ## The invariant -/

theorem wellFormed_startup : WellFormed startup_state := by
  refine ⟨rfl, ?_⟩
  decide

theorem wellFormed_set {s : State} {i : Nat} {d e : device_t} (hs : WellFormed s)
    (hi : s.g_devices[i]? = some d) (he : e.static = d.static)
    (hv : e.value.length ≤ 31 ∧ NUL ∉ e.value) :
    WellFormed { s with g_devices := s.g_devices.set i e } := by
  refine ⟨?_, ?_⟩
  · show (s.g_devices.set i e).map device_t.static = _
    rw [map_static_set hi he]
    exact hs.1
  · intro x hx
    rcases mem_set_cases hx with rfl | hx
    · exact hv
    · exact hs.2 x hx

theorem wellFormed_toggle_device {s : State} (hs : WellFormed s) (device_id : List Char) :
    WellFormed (toggle_device s device_id).state := by
  unfold toggle_device
  split
  · exact hs
  · rename_i i d hf
    have hi := (find_device_some hf).1
    exact wellFormed_set hs hi rfl (hs.2 d (List.mem_iff_getElem?.2 ⟨i, hi⟩))

theorem wellFormed_update_device_value {s : State} (hs : WellFormed s)
    (device_id value : List Char) :
    WellFormed (update_device_value s device_id value).state := by
  unfold update_device_value
  split
  · exact hs
  · rename_i i d hf
    have hi := (find_device_some hf).1
    exact wellFormed_set hs hi rfl ⟨strncpy_length _ _, strncpy_nul_free _ _⟩

theorem wellFormed_mqtt_init {s : State} (hs : WellFormed s) (connect_ret subscribe_ret : Int) :
    WellFormed (mqtt_init s connect_ret subscribe_ret).state := by
  unfold mqtt_init
  split
  · exact hs
  · split
    · exact hs
    · exact hs

theorem take_message_len (message : List Char) :
    message.take (if message.length ≥ 128 then 127 else message.length) = message.take 127 := by
  split
  · rfl
  · rw [List.take_of_length_le (le_refl _), List.take_of_length_le (by omega)]

/-- The callback with the clamped copy written as `message.take 127`. -/
theorem mqtt_message_callback_eq (s : State) (topic message : List Char) :
    mqtt_message_callback s topic message =
      if (sscanf_topic topic).1 ≠ 1 then { state := s, trace := [] }
      else if cstr (message.take 127) = "toggle".toList then
        { state := (toggle_device s (sscanf_topic topic).2).state,
          trace := (toggle_device s (sscanf_topic topic).2).trace }
      else if (cstr (message.take 127)).take 6 = "value:".toList then
        { state := (update_device_value s (sscanf_topic topic).2
                      ((cstr (message.take 127)).drop 6)).state,
          trace := (update_device_value s (sscanf_topic topic).2
                      ((cstr (message.take 127)).drop 6)).trace }
      else { state := s, trace := [] } := by
  unfold mqtt_message_callback
  simp only [take_message_len]

theorem wellFormed_mqtt_message_callback {s : State} (hs : WellFormed s)
    (topic message : List Char) :
    WellFormed (mqtt_message_callback s topic message).state := by
  rw [mqtt_message_callback_eq]
  split
  · exact hs
  · split
    · exact wellFormed_toggle_device hs _
    · split
      · exact wellFormed_update_device_value hs _ _
      · exact hs

theorem wellFormed_step {s : State} (hs : WellFormed s) (i : Input) :
    WellFormed (step s i).state := by
  cases i with
  | message topic payload => exact wellFormed_mqtt_message_callback hs topic payload
  | sensor value => exact wellFormed_update_device_value hs _ value
  | reconnect c r => exact wellFormed_mqtt_init hs c r

theorem wellFormed_of_reachable {s : State} (h : Reachable s) : WellFormed s := by
  induction h with
  | startup => exact wellFormed_startup
  | step s i _ ih => exact wellFormed_step ih i

/-! ## Topic parsing -/

theorem match_literal_append (lit rest : List Char) :
    match_literal lit (lit ++ rest) = Scan.matched rest := by
  induction lit with
  | nil => cases rest <;> rfl
  | cons c cs ih => simp [match_literal, ih]

theorem takeWhile_not_slash {id : List Char} (h : '/' ∉ id) (rest : List Char) :
    (id ++ '/' :: rest).takeWhile (fun c => c != '/') = id := by
  induction id with
  | nil => simp
  | cons c cs ih =>
    have hc : c ≠ '/' := fun e => h (by simp [e])
    have hcs : '/' ∉ cs := fun e => h (by simp [e])
    simp [List.takeWhile_cons, hc, ih hcs]

/-- Whatever follows the scanned id, the return value is `1` once the id is non-empty. -/
theorem sscanf_topic_of_prefix (rest : List Char) (h : scan_not_slash 31 rest ≠ []) :
    sscanf_topic ("home/devices/".toList ++ rest) = (1, scan_not_slash 31 rest) := by
  unfold sscanf_topic
  rw [match_literal_append]
  cases rest with
  | nil => simp [scan_not_slash] at h
  | cons c cs =>
    simp only [h, if_false]
    split <;> rfl

theorem scan_not_slash_control {id : List Char} (h : '/' ∉ id) :
    scan_not_slash 31 (id ++ "/control".toList) = id.take 31 := by
  unfold scan_not_slash
  have : "/control".toList = '/' :: "control".toList := rfl
  rw [this, takeWhile_not_slash h]

theorem sscanf_topic_control {id : List Char} (h : '/' ∉ id) (hne : id ≠ []) :
    sscanf_topic (control_topic id) = (1, id.take 31) := by
  have h1 := scan_not_slash_control h
  have h2 : control_topic id = "home/devices/".toList ++ (id ++ "/control".toList) := by
    simp [control_topic]
  rw [h2, sscanf_topic_of_prefix _ (by rw [h1]; cases id <;> simp_all), h1]

theorem sscanf_topic_control_empty : (sscanf_topic (control_topic [])).1 ≠ 1 := by decide

/-! ## Registered ids -/

theorem ids_eq_map_static (s : State) :
    s.ids = (s.g_devices.map device_t.static).map Prod.fst := by
  simp [State.ids, List.map_map, Function.comp_def, device_t.static]

theorem ids_of_wellFormed {s : State} (h : WellFormed s) : s.ids = startup_state.ids := by
  rw [ids_eq_map_static, h.1, ids_eq_map_static]
  rfl

theorem startup_ids_shape :
    ∀ id ∈ startup_state.ids, '/' ∉ id ∧ id ≠ [] ∧ id.length ≤ 13 ∧ NUL ∉ id := by
  decide

theorem sscanf_topic_registered {s : State} (hs : WellFormed s) {id : List Char}
    (hid : id ∈ s.ids) : sscanf_topic (control_topic id) = (1, id) := by
  rw [ids_of_wellFormed hs] at hid
  obtain ⟨h1, h2, h3, _⟩ := startup_ids_shape id hid
  rw [sscanf_topic_control h1 h2, List.take_of_length_le (by omega)]

/-! ## Publishing without truncation -/

theorem startup_static_bounds :
    ∀ t ∈ startup_devices.map device_t.static,
      t.1.length ≤ 13 ∧ t.2.1.length ≤ 18 ∧ t.2.2.1.length ≤ 10 ∧ t.2.2.2.length ≤ 8 := by
  decide

theorem state_record_length (d : device_t) :
    (state_record d).length ≤
      67 + d.id.length + d.name.length + d.type.length + d.room_id.length + d.value.length := by
  unfold state_record
  simp only [List.length_append]
  have e1 : "\x7b\"id\":\"".toList.length = 7 := rfl
  have e2 : "\",\"name\":\"".toList.length = 10 := rfl
  have e3 : "\",\"type\":\"".toList.length = 10 := rfl
  have e4 : "\",\"room_id\":\"".toList.length = 13 := rfl
  have e5 : "\",\"is_on\":".toList.length = 10 := rfl
  have e6 : ",\"value\":\"".toList.length = 10 := rfl
  have e7 : "\"\x7d".toList.length = 2 := rfl
  have e8 : (if d.is_on then "true".toList else "false".toList).length ≤ 5 := by
    split <;> decide
  omega

theorem state_topic_length (id : List Char) : (state_topic id).length = 19 + id.length := by
  unfold state_topic
  simp only [List.length_append]
  have e1 : "home/devices/".toList.length = 13 := rfl
  have e2 : "/state".toList.length = 6 := rfl
  omega

/-- A record whose immutable fields are those of a start-up device and whose value fits its
field is published whole: neither `snprintf` truncates. -/
theorem publish_device_state_whole {d : device_t}
    (hst : d.static ∈ startup_devices.map device_t.static) (hv : d.value.length ≤ 31) :
    publish_device_state true d = [Event.publish (state_topic d.id) (state_record d)] := by
  obtain ⟨h1, h2, h3, h4⟩ := startup_static_bounds _ hst
  simp only [device_t.static] at h1 h2 h3 h4
  have hr := state_record_length d
  have ht := state_topic_length d.id
  simp only [publish_device_state, snprintf, Bool.not_true, Bool.false_eq_true, if_false]
  rw [List.take_of_length_le (by omega), List.take_of_length_le (by omega)]

theorem static_mem_of_wellFormed {s : State} (hs : WellFormed s) {d : device_t}
    (hd : d ∈ s.g_devices) : d.static ∈ startup_devices.map device_t.static := by
  rw [← hs.1]
  exact List.mem_map_of_mem _ hd

/-! ## The mutators, case by case -/

theorem toggle_device_found {s : State} {device_id : List Char} {i : Nat} {d : device_t}
    (hf : find_device s.g_devices device_id = some (i, d)) :
    toggle_device s device_id =
      { state := { s with g_devices := s.g_devices.set i { d with is_on := !d.is_on } },
        trace := [Event.lock] ++
                 publish_device_state s.g_mqtt_connected { d with is_on := !d.is_on } ++
                 [Event.unlock],
        ret := OK } := by
  simp [toggle_device, hf]

theorem update_device_value_found {s : State} {device_id value : List Char} {i : Nat}
    {d : device_t} (hf : find_device s.g_devices device_id = some (i, d)) :
    update_device_value s device_id value =
      { state := { s with g_devices := s.g_devices.set i { d with value := strncpy value 31 } },
        trace := [Event.lock] ++
                 publish_device_state s.g_mqtt_connected { d with value := strncpy value 31 } ++
                 [Event.unlock],
        ret := OK } := by
  simp [update_device_value, hf]

theorem toggle_device_not_found {s : State} {device_id : List Char}
    (h : device_id ∉ s.ids) :
    toggle_device s device_id =
      { state := s, trace := [Event.lock, Event.unlock], ret := -ENODEV } := by
  simp [toggle_device, find_device_none.2 h]

theorem update_device_value_not_found {s : State} {device_id : List Char}
    (h : device_id ∉ s.ids) (value : List Char) :
    update_device_value s device_id value =
      { state := s, trace := [Event.lock, Event.unlock], ret := -ENODEV } := by
  simp [update_device_value, find_device_none.2 h]

theorem publishes_locked (es : List Event) :
    publishes ([Event.lock] ++ es ++ [Event.unlock]) = publishes es := by
  induction es with
  | nil => rfl
  | cons e es ih =>
    cases e <;> simp_all [publishes]

theorem publishes_publish_device_state_false (d : device_t) :
    publish_device_state false d = [] := rfl

theorem reachable_connected_startup : Reachable connected_startup_state :=
  Reachable.step startup_state (Input.reconnect OK OK) Reachable.startup

theorem cstr_toggle : cstr ("toggle".toList.take 127) = "toggle".toList := by decide

/-- The callback on the control topic of a registered device, payload `toggle`. -/
theorem callback_toggle_registered {s : State} (hs : WellFormed s) {id : List Char}
    (hid : id ∈ s.ids) :
    ∃ i d, s.g_devices[i]? = some d ∧ d.id = id ∧
      find_device s.g_devices id = some (i, d) ∧
      mqtt_message_callback s (control_topic id) "toggle".toList =
        { state := { s with g_devices := s.g_devices.set i { d with is_on := !d.is_on } },
          trace := [Event.lock] ++
                   publish_device_state s.g_mqtt_connected { d with is_on := !d.is_on } ++
                   [Event.unlock] } := by
  obtain ⟨i, d, hf⟩ := find_device_of_mem hid
  obtain ⟨hi, hd⟩ := find_device_some hf
  refine ⟨i, d, hi, hd, hf, ?_⟩
  rw [mqtt_message_callback_eq, sscanf_topic_registered hs hid, cstr_toggle,
    toggle_device_found hf]
  simp

/-- The record of a registered device stays publishable whole after `is_on` or `value`
(within 31 characters) is replaced. -/
theorem publish_whole_of_mem {s : State} (hs : WellFormed s) {i : Nat} {d : device_t}
    (hi : s.g_devices[i]? = some d) (e : device_t) (he : e.static = d.static)
    (hv : e.value.length ≤ 31) :
    publish_device_state true e = [Event.publish (state_topic e.id) (state_record e)] := by
  apply publish_device_state_whole _ hv
  rw [he]
  exact static_mem_of_wellFormed hs (List.mem_iff_getElem?.2 ⟨i, hi⟩)

/-- C1. In every reachable state with the transport connected, `toggle` on the control
topic of a registered device `id` replaces that device by the same record with `is_on`
inverted and hands exactly one message to `mqtt_publish`: the whole state record of the
new device, on `home/devices/<id>/state`.  From the start-up state, `toggle` on
`home/devices/kitchen_light/control` publishes the kitchen_light record with `is_on` true. -/
theorem C1_toggle_inverts_and_publishes :
    (∀ s : State, Reachable s → s.g_mqtt_connected = true → ∀ id ∈ s.ids,
      ∃ i d, s.g_devices[i]? = some d ∧ d.id = id ∧
        (mqtt_message_callback s (control_topic id) "toggle".toList).state =
          { s with g_devices := s.g_devices.set i { d with is_on := !d.is_on } } ∧
        publishes (mqtt_message_callback s (control_topic id) "toggle".toList).trace =
          [(state_topic id, state_record { d with is_on := !d.is_on })]) ∧
    publishes (mqtt_message_callback connected_startup_state
        "home/devices/kitchen_light/control".toList "toggle".toList).trace =
      [("home/devices/kitchen_light/state".toList,
        ("\x7b\"id\":\"kitchen_light\",\"name\":\"Kitchen Light\",\"type\":\"LIGHT\"," ++
         "\"room_id\":\"kitchen\",\"is_on\":true,\"value\":\"\"\x7d").toList)] := by
  refine ⟨?_, by decide⟩
  intro s hr hc id hid
  have hs := wellFormed_of_reachable hr
  obtain ⟨i, d, hi, hd, _, hcb⟩ := callback_toggle_registered hs hid
  refine ⟨i, d, hi, hd, by rw [hcb], ?_⟩
  rw [hcb, hc]
  simp only [publishes_locked]
  rw [publish_whole_of_mem hs hi { d with is_on := !d.is_on } rfl
    (hs.2 d (List.mem_iff_getElem?.2 ⟨i, hi⟩)).1]
  simp [publishes, hd]

/-- C1, at the start-up state with the session established and device `kitchen_light`. -/
theorem C1_toggle_inverts_and_publishes_witness :
    Reachable connected_startup_state ∧
    ∃ i d, connected_startup_state.g_devices[i]? = some d ∧ d.id = "kitchen_light".toList ∧
      (mqtt_message_callback connected_startup_state (control_topic "kitchen_light".toList)
          "toggle".toList).state =
        { connected_startup_state with
          g_devices := connected_startup_state.g_devices.set i { d with is_on := !d.is_on } } ∧
      publishes (mqtt_message_callback connected_startup_state
          (control_topic "kitchen_light".toList) "toggle".toList).trace =
        [(state_topic "kitchen_light".toList, state_record { d with is_on := !d.is_on })] :=
  ⟨reachable_connected_startup,
   C1_toggle_inverts_and_publishes.1 connected_startup_state reachable_connected_startup rfl
     "kitchen_light".toList (by decide)⟩

/-- The C string read from the clamped copy of a payload `value:<t>` of at most 127 bytes
without terminator inside is the payload itself. -/
theorem cstr_value_payload {t : List Char} (hn : NUL ∉ t)
    (hl : ("value:".toList ++ t).length ≤ 127) :
    cstr (("value:".toList ++ t).take 127) = "value:".toList ++ t := by
  rw [List.take_of_length_le hl]
  apply cstr_of_nul_free
  intro h
  rcases List.mem_append.1 h with h | h
  · revert h
    decide
  · exact hn h

theorem value_payload_ne_toggle (t : List Char) : "value:".toList ++ t ≠ "toggle".toList := by
  intro h
  have := congrArg List.head? h
  simp at this

/-- The callback on the control topic of a registered device, payload `value:<t>`. -/
theorem callback_value_registered {s : State} (hs : WellFormed s) {id : List Char}
    (hid : id ∈ s.ids) {t : List Char} (hn : NUL ∉ t)
    (hl : ("value:".toList ++ t).length ≤ 127) :
    ∃ i d, s.g_devices[i]? = some d ∧ d.id = id ∧
      mqtt_message_callback s (control_topic id) ("value:".toList ++ t) =
        { state := { s with g_devices := s.g_devices.set i { d with value := t.take 31 } },
          trace := [Event.lock] ++
                   publish_device_state s.g_mqtt_connected { d with value := t.take 31 } ++
                   [Event.unlock] } := by
  obtain ⟨i, d, hf⟩ := find_device_of_mem hid
  obtain ⟨hi, hd⟩ := find_device_some hf
  refine ⟨i, d, hi, hd, ?_⟩
  have h6 : ("value:".toList ++ t).take 6 = "value:".toList := by
    rw [List.take_append_of_le_length (by decide)]
    rfl
  have hd6 : ("value:".toList ++ t).drop 6 = t := by
    rw [List.drop_append_of_le_length (by decide)]
    rfl
  rw [mqtt_message_callback_eq, sscanf_topic_registered hs hid, cstr_value_payload hn hl,
    if_neg (by simp), if_neg (value_payload_ne_toggle t), if_pos h6, hd6,
    update_device_value_found hf, strncpy_of_nul_free hn]

/-- C2 (amended). In every reachable state, for a registered device `id` and a text `t`
without terminator such that `value:<t>` is at most 127 bytes, the callback on the control
topic of `id` replaces that device by the same record with `value` set to the first 31
bytes of `t` (all of `t` when it has at most 31 bytes), `is_on` untouched, and, when
connected, publishes exactly the whole record of the new device (nothing when
disconnected).  From the start-up state `value:68.5` on the thermostat topic publishes
the thermostat record with value `68.5` and `is_on` true. -/
theorem C2_value_set_stores_first_31_bytes :
    (∀ s : State, Reachable s → ∀ id ∈ s.ids, ∀ t : List Char, NUL ∉ t →
      ("value:".toList ++ t).length ≤ 127 →
      ∃ i d, s.g_devices[i]? = some d ∧ d.id = id ∧
        (mqtt_message_callback s (control_topic id) ("value:".toList ++ t)).state =
          { s with g_devices := s.g_devices.set i { d with value := t.take 31 } } ∧
        (t.length ≤ 31 → t.take 31 = t) ∧
        publishes (mqtt_message_callback s (control_topic id) ("value:".toList ++ t)).trace =
          if s.g_mqtt_connected then
            [(state_topic id, state_record { d with value := t.take 31 })]
          else []) ∧
    publishes (mqtt_message_callback connected_startup_state
        "home/devices/thermostat/control".toList "value:68.5".toList).trace =
      [("home/devices/thermostat/state".toList,
        ("\x7b\"id\":\"thermostat\",\"name\":\"Thermostat\",\"type\":\"THERMOSTAT\"," ++
         "\"room_id\":\"living\",\"is_on\":true,\"value\":\"68.5\"\x7d").toList)] := by
  refine ⟨?_, by decide⟩
  intro s hr id hid t hn hl
  have hs := wellFormed_of_reachable hr
  obtain ⟨i, d, hi, hd, hcb⟩ := callback_value_registered hs hid hn hl
  refine ⟨i, d, hi, hd, by rw [hcb], List.take_of_length_le, ?_⟩
  rw [hcb]
  simp only [publishes_locked]
  cases hc : s.g_mqtt_connected with
  | false => simp [publish_device_state, publishes]
  | true =>
    rw [publish_whole_of_mem hs hi { d with value := t.take 31 } rfl
      (by simp [List.length_take])]
    simp [publishes, hd]

/-- C2 (amended), at the start-up state with the session established, device `thermostat`
and text `68.5`. -/
theorem C2_value_set_stores_first_31_bytes_witness :
    Reachable connected_startup_state ∧
    ∃ i d, connected_startup_state.g_devices[i]? = some d ∧ d.id = "thermostat".toList ∧
      (mqtt_message_callback connected_startup_state (control_topic "thermostat".toList)
          ("value:".toList ++ "68.5".toList)).state =
        { connected_startup_state with
          g_devices := connected_startup_state.g_devices.set i
            { d with value := "68.5".toList.take 31 } } ∧
      ("68.5".toList.length ≤ 31 → "68.5".toList.take 31 = "68.5".toList) ∧
      publishes (mqtt_message_callback connected_startup_state
          (control_topic "thermostat".toList) ("value:".toList ++ "68.5".toList)).trace =
        if connected_startup_state.g_mqtt_connected then
          [(state_topic "thermostat".toList,
            state_record { d with value := "68.5".toList.take 31 })]
        else [] :=
  ⟨reachable_connected_startup,
   C2_value_set_stores_first_31_bytes.1 connected_startup_state reachable_connected_startup
     "thermostat".toList (by decide) "68.5".toList (by decide) (by decide)⟩

/-- C2 as stated fails: in the start-up state with the session established, the payload
`value:` followed by 32 letters `a` (38 bytes, no terminator inside) on the thermostat
control topic leaves the thermostat with a value of 31 letters, not the 32 sent. -/
theorem C2_counterexample_value_longer_than_field :
    Reachable connected_startup_state ∧
    "thermostat".toList ∈ connected_startup_state.ids ∧
    NUL ∉ List.replicate 32 'a' ∧
    ("value:".toList ++ List.replicate 32 'a').length ≤ 127 ∧
    (mqtt_message_callback connected_startup_state (control_topic "thermostat".toList)
        ("value:".toList ++ List.replicate 32 'a')).state.g_devices.map
      (fun d => (d.id, d.value)) =
      [("living_light".toList, []), ("kitchen_light".toList, []),
       ("thermostat".toList, List.replicate 31 'a'), ("temp_sensor".toList, "70.0".toList),
       ("front_lock".toList, [])] ∧
    List.replicate 31 'a' ≠ List.replicate 32 'a' :=
  ⟨reachable_connected_startup, by decide⟩

/-- An id that is not registered is not registered after being cut to 31 characters: the
registered ids are shorter than the cut. -/
theorem take_not_registered {s : State} (hs : WellFormed s) {id : List Char}
    (h : id ∉ s.ids) : id.take 31 ∉ s.ids := by
  by_cases hl : id.length ≤ 31
  · rwa [List.take_of_length_le hl]
  · intro hm
    rw [ids_of_wellFormed hs] at hm
    have h3 := (startup_ids_shape _ hm).2.2.1
    simp only [List.length_take] at h3
    omega

/-- The callback does nothing observable when the scanned id is not registered. -/
theorem callback_unregistered {s : State} {topic : List Char}
    (h : (sscanf_topic topic).1 = 1 → (sscanf_topic topic).2 ∉ s.ids) (message : List Char) :
    (mqtt_message_callback s topic message).state = s ∧
    publishes (mqtt_message_callback s topic message).trace = [] := by
  rw [mqtt_message_callback_eq]
  split
  · exact ⟨rfl, rfl⟩
  · rename_i h1
    have hn := h (not_not.1 h1)
    split
    · rw [toggle_device_not_found hn]
      exact ⟨rfl, rfl⟩
    · split
      · rw [update_device_value_not_found hn]
        exact ⟨rfl, rfl⟩
      · exact ⟨rfl, rfl⟩

/-- C3. In every reachable state, for an id that no registered device has:
`toggle_device` and `update_device_value` leave the globals as they are, publish nothing and
return `-ENODEV`; and when the id is one topic level (it contains no `/`), the callback on
`home/devices/<id>/control` leaves the globals as they are and publishes nothing, whatever
the payload.  In particular `toggle` on `home/devices/nonexistent/control` publishes
nothing. -/
theorem C3_unknown_device_is_a_no_op :
    (∀ s : State, Reachable s → ∀ id : List Char, id ∉ s.ids →
      ((toggle_device s id).state = s ∧ publishes (toggle_device s id).trace = [] ∧
        (toggle_device s id).ret = -ENODEV) ∧
      (∀ value : List Char,
        (update_device_value s id value).state = s ∧
        publishes (update_device_value s id value).trace = [] ∧
        (update_device_value s id value).ret = -ENODEV) ∧
      ('/' ∉ id → ∀ payload : List Char,
        (mqtt_message_callback s (control_topic id) payload).state = s ∧
        publishes (mqtt_message_callback s (control_topic id) payload).trace = [])) ∧
    ((mqtt_message_callback connected_startup_state
        "home/devices/nonexistent/control".toList "toggle".toList).state =
      connected_startup_state ∧
     publishes (mqtt_message_callback connected_startup_state
        "home/devices/nonexistent/control".toList "toggle".toList).trace = []) := by
  refine ⟨?_, by decide⟩
  intro s hr id hid
  have hs := wellFormed_of_reachable hr
  refine ⟨?_, ?_, ?_⟩
  · rw [toggle_device_not_found hid]
    exact ⟨rfl, rfl, rfl⟩
  · intro value
    rw [update_device_value_not_found hid]
    exact ⟨rfl, rfl, rfl⟩
  · intro hslash payload
    apply callback_unregistered
    intro h1
    by_cases hne : id = []
    · subst hne
      exact absurd h1 sscanf_topic_control_empty
    · rw [sscanf_topic_control hslash hne]
      exact take_not_registered hs hid

/-- C3, at the start-up state with the session established and the id `nonexistent`. -/
theorem C3_unknown_device_is_a_no_op_witness :
    Reachable connected_startup_state ∧ "nonexistent".toList ∉ connected_startup_state.ids ∧
    '/' ∉ "nonexistent".toList ∧
    (toggle_device connected_startup_state "nonexistent".toList).ret = -ENODEV ∧
    (update_device_value connected_startup_state "nonexistent".toList "1".toList).ret =
      -ENODEV ∧
    publishes (mqtt_message_callback connected_startup_state
      (control_topic "nonexistent".toList) "value:1".toList).trace = [] :=
  have h := C3_unknown_device_is_a_no_op.1 connected_startup_state reachable_connected_startup
    "nonexistent".toList (by decide)
  ⟨reachable_connected_startup, by decide, by decide, h.1.2.2, (h.2.1 "1".toList).2.2,
   (h.2.2 (by decide) "value:1".toList).2⟩

/-! ## Bulk publish -/

theorem publishes_append (a b : List Event) :
    publishes (a ++ b) = publishes a ++ publishes b := by
  induction a with
  | nil => rfl
  | cons e es ih => cases e <;> simp_all [publishes]

theorem publishes_publish_all {ds : List device_t}
    (h : ∀ d ∈ ds, d.static ∈ startup_devices.map device_t.static ∧ d.value.length ≤ 31) :
    publishes (publish_all true ds) = ds.map (fun d => (state_topic d.id, state_record d)) := by
  induction ds with
  | nil => rfl
  | cons d ds ih =>
    have hd := h d (List.mem_cons_self _ _)
    rw [publish_all, publishes_append, publish_device_state_whole hd.1 hd.2,
      ih (fun x hx => h x (List.mem_cons_of_mem _ hx))]
    rfl

theorem reachable_run {s : State} (h : Reachable s) (inputs : List Input) :
    Reachable (run s inputs) := by
  induction inputs generalizing s with
  | nil => exact h
  | cons i rest ih => exact ih (Reachable.step s i h)

/-- C4. In every reachable state, a call of `mqtt_init` in which `mqtt_connect` and
`mqtt_subscribe` both return `OK` returns `OK`, sets `g_mqtt_connected`, leaves the registry
as it is and hands to `mqtt_publish` exactly one message per registered device, in registry
order: the i-th message is the whole state record of the i-th device on its state topic. -/
theorem C4_reconnect_publishes_every_device_once (s : State) (h : Reachable s) :
    (mqtt_init s OK OK).ret = OK ∧
    (mqtt_init s OK OK).state = { s with g_mqtt_connected := true } ∧
    publishes (mqtt_init s OK OK).trace =
      s.g_devices.map (fun d => (state_topic d.id, state_record d)) ∧
    (publishes (mqtt_init s OK OK).trace).length = s.g_num_devices := by
  have hs := wellFormed_of_reachable h
  have hp : publishes (mqtt_init s OK OK).trace =
      s.g_devices.map (fun d => (state_topic d.id, state_record d)) := by
    have ht : (mqtt_init s OK OK).trace =
        [Event.connect, Event.subscribe "home/devices/+/control".toList, Event.lock] ++
          (publish_all true s.g_devices ++ [Event.unlock]) := by
      simp [mqtt_init]
    rw [ht, publishes_append, publishes_append,
      publishes_publish_all (fun d hd => ⟨static_mem_of_wellFormed hs hd, (hs.2 d hd).1⟩)]
    simp [publishes]
  refine ⟨by simp [mqtt_init], by simp [mqtt_init], hp, ?_⟩
  rw [hp, List.length_map]
  rfl

/-- C4, after a toggle, a value command and a sensor reading were handled while
disconnected: the five publishes carry the state changed by them. -/
theorem C4_reconnect_publishes_every_device_once_witness :
    publishes (mqtt_init (run startup_state
        [Input.message "home/devices/front_lock/control".toList "toggle".toList,
         Input.message "home/devices/thermostat/control".toList "value:65".toList,
         Input.sensor "71.5".toList]) OK OK).trace =
      [ { id := "living_light".toList, name := "Living Room Light".toList,
          type := "LIGHT".toList, room_id := "living".toList, is_on := false, value := [] },
        { id := "kitchen_light".toList, name := "Kitchen Light".toList,
          type := "LIGHT".toList, room_id := "kitchen".toList, is_on := false, value := [] },
        { id := "thermostat".toList, name := "Thermostat".toList,
          type := "THERMOSTAT".toList, room_id := "living".toList, is_on := true,
          value := "65".toList },
        { id := "temp_sensor".toList, name := "Temperature Sensor".toList,
          type := "SENSOR".toList, room_id := "bedroom".toList, is_on := true,
          value := "71.5".toList },
        { id := "front_lock".toList, name := "Front Door".toList,
          type := "LOCK".toList, room_id := "entrance".toList, is_on := true, value := [] }
      ].map (fun d => (state_topic d.id, state_record d)) :=
  (C4_reconnect_publishes_every_device_once _
    (reachable_run Reachable.startup
      [Input.message "home/devices/front_lock/control".toList "toggle".toList,
       Input.message "home/devices/thermostat/control".toList "value:65".toList,
       Input.sensor "71.5".toList])).2.2.1

/-- C5 fails on the code: in the start-up state with the session established, the callback
handles `toggle` on the state topic `home/devices/kitchen_light/state` and on the bare
topic `home/devices/kitchen_light` as a command for kitchen_light (the registry changes and
a record with `is_on` true is published), because `sscanf` already returns 1 when the id
has been scanned. -/
theorem C5_topic_without_control_suffix_is_handled :
    sscanf_topic "home/devices/kitchen_light/state".toList = (1, "kitchen_light".toList) ∧
    (mqtt_message_callback connected_startup_state
        "home/devices/kitchen_light/state".toList "toggle".toList).state ≠
      connected_startup_state ∧
    publishes (mqtt_message_callback connected_startup_state
        "home/devices/kitchen_light/state".toList "toggle".toList).trace =
      [("home/devices/kitchen_light/state".toList,
        ("\x7b\"id\":\"kitchen_light\",\"name\":\"Kitchen Light\",\"type\":\"LIGHT\"," ++
         "\"room_id\":\"kitchen\",\"is_on\":true,\"value\":\"\"\x7d").toList)] ∧
    publishes (mqtt_message_callback connected_startup_state
        "home/devices/kitchen_light".toList "toggle".toList).trace =
      [("home/devices/kitchen_light/state".toList,
        ("\x7b\"id\":\"kitchen_light\",\"name\":\"Kitchen Light\",\"type\":\"LIGHT\"," ++
         "\"room_id\":\"kitchen\",\"is_on\":true,\"value\":\"\"\x7d").toList)] := by
  decide

/-! ## Payload recognition -/

theorem cstr_take_of_nul_free {payload : List Char} (h : NUL ∉ payload) (n : Nat) :
    cstr (payload.take n) = payload.take n :=
  cstr_of_nul_free (fun hm => h (List.mem_of_mem_take hm))

theorem take_127_eq_toggle {payload : List Char}
    (h : payload.take 127 = "toggle".toList) : payload = "toggle".toList := by
  have hl := congrArg List.length h
  rw [List.length_take] at hl
  have h6 : "toggle".toList.length = 6 := rfl
  rw [h6] at hl
  rw [List.take_of_length_le (by omega)] at h
  exact h

/-- C6 (amended). In every state and for every topic, a payload whose first 127 bytes, read
as a C string (up to the first terminator), are neither the text `toggle` nor begin with
`value:` is discarded: the globals are unchanged and no action at all is performed.  This
covers every payload without a terminator inside that is neither `toggle` nor begins with
`value:`. -/
theorem C6_unrecognised_payload_is_discarded :
    (∀ (s : State) (topic payload : List Char),
      cstr (payload.take 127) ≠ "toggle".toList →
      (cstr (payload.take 127)).take 6 ≠ "value:".toList →
      mqtt_message_callback s topic payload = { state := s, trace := [] }) ∧
    (∀ (s : State) (topic payload : List Char), NUL ∉ payload →
      payload ≠ "toggle".toList → payload.take 6 ≠ "value:".toList →
      mqtt_message_callback s topic payload = { state := s, trace := [] }) := by
  have general : ∀ (s : State) (topic payload : List Char),
      cstr (payload.take 127) ≠ "toggle".toList →
      (cstr (payload.take 127)).take 6 ≠ "value:".toList →
      mqtt_message_callback s topic payload = { state := s, trace := [] } := by
    intro s topic payload h1 h2
    rw [mqtt_message_callback_eq, if_neg h1, if_neg h2]
    simp
  refine ⟨general, ?_⟩
  intro s topic payload hn h1 h2
  apply general
  · rw [cstr_take_of_nul_free hn]
    exact fun h => h1 (take_127_eq_toggle h)
  · rw [cstr_take_of_nul_free hn, List.take_take]
    exact h2

/-- C6 (amended), on the control topic of kitchen_light in the start-up state with the
session established, for the payloads `Toggle`, `toggle\n`, `value` and the empty one. -/
theorem C6_unrecognised_payload_is_discarded_witness :
    mqtt_message_callback connected_startup_state
        "home/devices/kitchen_light/control".toList "Toggle".toList =
      { state := connected_startup_state, trace := [] } ∧
    mqtt_message_callback connected_startup_state
        "home/devices/kitchen_light/control".toList "toggle\n".toList =
      { state := connected_startup_state, trace := [] } ∧
    mqtt_message_callback connected_startup_state
        "home/devices/kitchen_light/control".toList "value".toList =
      { state := connected_startup_state, trace := [] } ∧
    mqtt_message_callback connected_startup_state
        "home/devices/kitchen_light/control".toList [] =
      { state := connected_startup_state, trace := [] } :=
  ⟨C6_unrecognised_payload_is_discarded.2 _ _ _ (by decide) (by decide) (by decide),
   C6_unrecognised_payload_is_discarded.2 _ _ _ (by decide) (by decide) (by decide),
   C6_unrecognised_payload_is_discarded.2 _ _ _ (by decide) (by decide) (by decide),
   C6_unrecognised_payload_is_discarded.1 _ _ _ (by decide) (by decide)⟩

/-- C6 as stated fails: the 7-byte payload `toggle` followed by a terminator byte is
neither the text `toggle` nor text beginning with `value:`, yet on the control topic of
kitchen_light the callback toggles the device and publishes its record. -/
theorem C6_counterexample_terminator_inside_payload :
    Reachable connected_startup_state ∧
    "toggle".toList ++ [NUL] ≠ "toggle".toList ∧
    ("toggle".toList ++ [NUL]).take 6 ≠ "value:".toList ∧
    (mqtt_message_callback connected_startup_state
        "home/devices/kitchen_light/control".toList ("toggle".toList ++ [NUL])).state ≠
      connected_startup_state ∧
    publishes (mqtt_message_callback connected_startup_state
        "home/devices/kitchen_light/control".toList ("toggle".toList ++ [NUL])).trace =
      [("home/devices/kitchen_light/state".toList,
        ("\x7b\"id\":\"kitchen_light\",\"name\":\"Kitchen Light\",\"type\":\"LIGHT\"," ++
         "\"room_id\":\"kitchen\",\"is_on\":true,\"value\":\"\"\x7d").toList)] :=
  ⟨reachable_connected_startup, by decide⟩

/-! ## Toggling twice -/

theorem find_device_set {ds : List device_t} {device_id : List Char} {i : Nat}
    {d : device_t} (hf : find_device ds device_id = some (i, d)) (e : device_t)
    (he : e.id = d.id) : find_device (ds.set i e) device_id = some (i, e) := by
  induction ds generalizing i with
  | nil => simp [find_device] at hf
  | cons x xs ih =>
    unfold find_device at hf
    split at hf
    · rename_i hx
      simp only [Option.some.injEq, Prod.mk.injEq] at hf
      obtain ⟨rfl, rfl⟩ := hf
      simp [find_device, he, hx]
    · rename_i hx
      split at hf
      · simp at hf
      · rename_i j e' hj
        simp only [Option.some.injEq, Prod.mk.injEq] at hf
        obtain ⟨rfl, rfl⟩ := hf
        simp [find_device, hx, ih hj]

theorem set_set_self {ds : List device_t} {i : Nat} {d : device_t}
    (hi : ds[i]? = some d) (e : device_t) : (ds.set i e).set i d = ds := by
  rw [List.set_set]
  induction ds generalizing i with
  | nil => rfl
  | cons x xs ih =>
    cases i with
    | zero => simp at hi; simp [hi]
    | succ j => simp at hi; simp [ih hi]

/-- C7. In every reachable state with the transport connected, handling `toggle` twice on
the control topic of a registered device leaves the globals exactly as they were before
the first, and each of the two calls publishes exactly one record of that device: the
first with `is_on` inverted, the second with the original `is_on`. -/
theorem C7_toggle_twice_restores_the_registry (s : State) (hr : Reachable s)
    (hc : s.g_mqtt_connected = true) (id : List Char) (hid : id ∈ s.ids) :
    (mqtt_message_callback
        (mqtt_message_callback s (control_topic id) "toggle".toList).state
        (control_topic id) "toggle".toList).state = s ∧
    ∃ (i : Nat) (d : device_t), s.g_devices[i]? = some d ∧ d.id = id ∧
      publishes (mqtt_message_callback s (control_topic id) "toggle".toList).trace =
        [(state_topic id, state_record { d with is_on := !d.is_on })] ∧
      publishes (mqtt_message_callback
          (mqtt_message_callback s (control_topic id) "toggle".toList).state
          (control_topic id) "toggle".toList).trace =
        [(state_topic id, state_record d)] := by
  have hs := wellFormed_of_reachable hr
  obtain ⟨i, d, hi, hd, hf, hcb⟩ := callback_toggle_registered hs hid
  have hmem := List.mem_iff_getElem?.2 ⟨i, hi⟩
  have hs1 : WellFormed (mqtt_message_callback s (control_topic id) "toggle".toList).state :=
    wellFormed_mqtt_message_callback hs _ _
  have hf1 := find_device_set hf { d with is_on := !d.is_on } rfl
  have hsecond : mqtt_message_callback
      (mqtt_message_callback s (control_topic id) "toggle".toList).state
      (control_topic id) "toggle".toList =
      { state := s,
        trace := [Event.lock] ++ publish_device_state true d ++ [Event.unlock] } := by
    have hid1 : id ∈ (mqtt_message_callback s (control_topic id) "toggle".toList).state.ids := by
      rw [ids_of_wellFormed hs1, ← ids_of_wellFormed hs]
      exact hid
    rw [mqtt_message_callback_eq, sscanf_topic_registered hs1 hid1, cstr_toggle]
    rw [hcb] at hs1 ⊢
    rw [toggle_device_found hf1]
    have hdd : ({ id := d.id, name := d.name, type := d.type, room_id := d.room_id,
                  is_on := d.is_on, value := d.value } : device_t) = d := rfl
    have hss : ({ g_devices := s.g_devices, g_mqtt_connected := true } : State) = s := by
      rw [← hc]
    simp only [Bool.not_not, hdd, set_set_self hi, hc, hss]
    simp
  refine ⟨by rw [hsecond], i, d, hi, hd, ?_, ?_⟩
  · rw [hcb, hc]
    simp only [publishes_locked]
    rw [publish_whole_of_mem hs hi { d with is_on := !d.is_on } rfl (hs.2 d hmem).1]
    simp [publishes, hd]
  · rw [hsecond]
    simp only [publishes_locked]
    rw [publish_whole_of_mem hs hi d rfl (hs.2 d hmem).1]
    simp [publishes, hd]

/-- C7, for `front_lock` in the start-up state with the session established. -/
theorem C7_toggle_twice_restores_the_registry_witness :
    Reachable connected_startup_state ∧
    (mqtt_message_callback
        (mqtt_message_callback connected_startup_state (control_topic "front_lock".toList)
          "toggle".toList).state
        (control_topic "front_lock".toList) "toggle".toList).state =
      connected_startup_state :=
  ⟨reachable_connected_startup,
   (C7_toggle_twice_restores_the_registry connected_startup_state reachable_connected_startup
     rfl "front_lock".toList (by decide)).1⟩

/-- C8. A payload of any length, in particular one longer than 127 bytes, is accepted and
handled exactly as its first 127 bytes are (same globals afterwards, same actions, hence
same publishes), in every state and for every topic; and when the state is reachable, every
stored value is at most 127 bytes long afterwards. -/
theorem C8_long_payload_is_handled_as_its_first_127_bytes (s : State)
    (topic payload : List Char) :
    mqtt_message_callback s topic payload =
      mqtt_message_callback s topic (payload.take 127) ∧
    (Reachable s →
      ∀ d ∈ (mqtt_message_callback s topic payload).state.g_devices, d.value.length ≤ 127) := by
  constructor
  · rw [mqtt_message_callback_eq, mqtt_message_callback_eq, List.take_take]
    rfl
  · intro hr d hd
    have h := (wellFormed_mqtt_message_callback (wellFormed_of_reachable hr) topic payload).2 d hd
    omega

set_option maxRecDepth 20000 in
/-- C8, for the 136-byte payload `value:` followed by 130 letters `x` on the thermostat
control topic in the start-up state with the session established: the thermostat keeps 31
letters. -/
theorem C8_long_payload_is_handled_as_its_first_127_bytes_witness :
    ("value:".toList ++ List.replicate 130 'x').length > 127 ∧
    mqtt_message_callback connected_startup_state "home/devices/thermostat/control".toList
        ("value:".toList ++ List.replicate 130 'x') =
      mqtt_message_callback connected_startup_state "home/devices/thermostat/control".toList
        (("value:".toList ++ List.replicate 130 'x').take 127) ∧
    (∀ d ∈ (mqtt_message_callback connected_startup_state
        "home/devices/thermostat/control".toList
        ("value:".toList ++ List.replicate 130 'x')).state.g_devices, d.value.length ≤ 127) ∧
    (mqtt_message_callback connected_startup_state "home/devices/thermostat/control".toList
        ("value:".toList ++ List.replicate 130 'x')).state.g_devices.map
      (fun d => d.value.length) = [0, 0, 31, 4, 0] :=
  ⟨by decide,
   (C8_long_payload_is_handled_as_its_first_127_bytes connected_startup_state
     "home/devices/thermostat/control".toList ("value:".toList ++ List.replicate 130 'x')).1,
   (C8_long_payload_is_handled_as_its_first_127_bytes connected_startup_state
     "home/devices/thermostat/control".toList ("value:".toList ++ List.replicate 130 'x')).2
     reachable_connected_startup,
   by decide⟩

/-- C9. On the empty registry `init_devices` returns `OK` and leaves exactly the five
devices living_light, kitchen_light, thermostat, temp_sensor, front_lock, in this order and
with the stated type, room, `is_on` and value; five does not exceed `MAX_DEVICES = 16`. -/
theorem C9_init_devices_registers_the_five_devices :
    init_devices empty_state =
      some { state :=
               { g_devices :=
                   [ { id := "living_light".toList, name := "Living Room Light".toList,
                       type := "LIGHT".toList, room_id := "living".toList,
                       is_on := false, value := "".toList },
                     { id := "kitchen_light".toList, name := "Kitchen Light".toList,
                       type := "LIGHT".toList, room_id := "kitchen".toList,
                       is_on := false, value := "".toList },
                     { id := "thermostat".toList, name := "Thermostat".toList,
                       type := "THERMOSTAT".toList, room_id := "living".toList,
                       is_on := true, value := "72.0".toList },
                     { id := "temp_sensor".toList, name := "Temperature Sensor".toList,
                       type := "SENSOR".toList, room_id := "bedroom".toList,
                       is_on := true, value := "70.0".toList },
                     { id := "front_lock".toList, name := "Front Door".toList,
                       type := "LOCK".toList, room_id := "entrance".toList,
                       is_on := false, value := "".toList } ],
                 g_mqtt_connected := false },
             trace := [Event.lock, Event.unlock],
             ret := OK } ∧
    (init_devices empty_state).map (fun r => r.state) = some startup_state ∧
    (init_devices empty_state).map (fun r => r.state.g_num_devices) = some 5 ∧
    5 ≤ MAX_DEVICES ∧ MAX_DEVICES = 16 := by
  decide

/-- C10. In every state reachable from the empty registry by `init_devices` followed by any
sequence of inbound messages, sensor updates and `mqtt_init` calls, no two devices of the
registry have the same id. -/
theorem C10_registered_ids_are_distinct (s : State) (h : Reachable s) : s.ids.Nodup := by
  rw [ids_of_wellFormed (wellFormed_of_reachable h)]
  decide

/-- C10, after a toggle, a value command addressed through a state topic, a sensor reading
and a successful `mqtt_init`. -/
theorem C10_registered_ids_are_distinct_witness :
    (run startup_state
      [Input.message "home/devices/living_light/control".toList "toggle".toList,
       Input.message "home/devices/front_lock/state".toList "value:front_lock".toList,
       Input.sensor "69.9".toList,
       Input.reconnect OK OK]).ids.Nodup :=
  C10_registered_ids_are_distinct _ (reachable_run Reachable.startup _)

/-! ## Frame lemmas -/

theorem map_set_of_eq {β : Type} (f : device_t → β) {ds : List device_t} {i : Nat}
    {d e : device_t} (h : ds[i]? = some d) (he : f e = f d) :
    (ds.set i e).map f = ds.map f := by
  induction ds generalizing i with
  | nil => simp
  | cons x xs ih =>
    cases i with
    | zero =>
      simp at h
      subst h
      simp [he]
    | succ j =>
      simp at h
      simp [ih h]

theorem getElem?_set_other {ds : List device_t} {i j : Nat} {d0 d e : device_t}
    {device_id : List Char} (hi : ds[i]? = some d0) (h0 : d0.id = device_id)
    (hj : ds[j]? = some d) (hne : d.id ≠ device_id) : (ds.set i e)[j]? = some d := by
  have hij : i ≠ j := by
    rintro rfl
    rw [hi] at hj
    cases hj
    exact hne h0
  rw [List.getElem?_set_ne hij]
  exact hj

/-- What `toggle_device` leaves alone. -/
theorem toggle_device_frame (s : State) (device_id : List Char) :
    (toggle_device s device_id).state.g_devices.map device_t.static =
      s.g_devices.map device_t.static ∧
    (toggle_device s device_id).state.g_devices.map device_t.value =
      s.g_devices.map device_t.value ∧
    (∀ (j : Nat) (d : device_t), s.g_devices[j]? = some d → d.id ≠ device_id →
      (toggle_device s device_id).state.g_devices[j]? = some d) ∧
    (toggle_device s device_id).state.g_mqtt_connected = s.g_mqtt_connected := by
  unfold toggle_device
  split
  · exact ⟨rfl, rfl, fun _ _ h _ => h, rfl⟩
  · rename_i i d0 hf
    obtain ⟨hi, h0⟩ := find_device_some hf
    exact ⟨map_set_of_eq _ hi rfl, map_set_of_eq _ hi rfl,
      fun j d hj hne => getElem?_set_other hi h0 hj hne, rfl⟩

/-- What `update_device_value` leaves alone. -/
theorem update_device_value_frame (s : State) (device_id value : List Char) :
    (update_device_value s device_id value).state.g_devices.map device_t.static =
      s.g_devices.map device_t.static ∧
    (update_device_value s device_id value).state.g_devices.map device_t.is_on =
      s.g_devices.map device_t.is_on ∧
    (∀ (j : Nat) (d : device_t), s.g_devices[j]? = some d → d.id ≠ device_id →
      (update_device_value s device_id value).state.g_devices[j]? = some d) ∧
    (update_device_value s device_id value).state.g_mqtt_connected = s.g_mqtt_connected := by
  unfold update_device_value
  split
  · exact ⟨rfl, rfl, fun _ _ h _ => h, rfl⟩
  · rename_i i d0 hf
    obtain ⟨hi, h0⟩ := find_device_some hf
    exact ⟨map_set_of_eq _ hi rfl, map_set_of_eq _ hi rfl,
      fun j d hj hne => getElem?_set_other hi h0 hj hne, rfl⟩

/-- C11. In every state (reachable or not), for every inbound message and every sensor
update: the registry keeps its length and order and every device keeps `id`, `name`, `type`
and `room_id`; every device whose id is not the addressed one (the id scanned from the
topic, `temp_sensor` for the sensor feed) is unchanged; a `toggle` changes no `value`, and
every other message and every sensor update changes no `is_on`.  The same holds for
`toggle_device` and `update_device_value` called with any id. -/
theorem C11_only_is_on_and_value_of_the_addressed_device_change (s : State) :
    (∀ topic payload : List Char,
      (mqtt_message_callback s topic payload).state.g_devices.length = s.g_devices.length ∧
      (mqtt_message_callback s topic payload).state.g_devices.map device_t.static =
        s.g_devices.map device_t.static ∧
      (∀ (j : Nat) (d : device_t), s.g_devices[j]? = some d →
        d.id ≠ (sscanf_topic topic).2 →
        (mqtt_message_callback s topic payload).state.g_devices[j]? = some d) ∧
      (cstr (payload.take 127) = "toggle".toList →
        (mqtt_message_callback s topic payload).state.g_devices.map device_t.value =
          s.g_devices.map device_t.value) ∧
      (cstr (payload.take 127) ≠ "toggle".toList →
        (mqtt_message_callback s topic payload).state.g_devices.map device_t.is_on =
          s.g_devices.map device_t.is_on)) ∧
    (∀ value : List Char,
      (step s (Input.sensor value)).state.g_devices.length = s.g_devices.length ∧
      (step s (Input.sensor value)).state.g_devices.map device_t.static =
        s.g_devices.map device_t.static ∧
      (∀ (j : Nat) (d : device_t), s.g_devices[j]? = some d →
        d.id ≠ "temp_sensor".toList →
        (step s (Input.sensor value)).state.g_devices[j]? = some d) ∧
      (step s (Input.sensor value)).state.g_devices.map device_t.is_on =
        s.g_devices.map device_t.is_on) ∧
    (∀ device_id : List Char,
      (toggle_device s device_id).state.g_devices.map device_t.static =
        s.g_devices.map device_t.static ∧
      (toggle_device s device_id).state.g_devices.map device_t.value =
        s.g_devices.map device_t.value ∧
      (∀ (j : Nat) (d : device_t), s.g_devices[j]? = some d → d.id ≠ device_id →
        (toggle_device s device_id).state.g_devices[j]? = some d)) ∧
    (∀ device_id value : List Char,
      (update_device_value s device_id value).state.g_devices.map device_t.static =
        s.g_devices.map device_t.static ∧
      (update_device_value s device_id value).state.g_devices.map device_t.is_on =
        s.g_devices.map device_t.is_on ∧
      (∀ (j : Nat) (d : device_t), s.g_devices[j]? = some d → d.id ≠ device_id →
        (update_device_value s device_id value).state.g_devices[j]? = some d)) := by
  refine ⟨?_, ?_, ?_, ?_⟩
  · intro topic payload
    have hlen : ∀ s' : State, s'.g_devices.map device_t.static =
        s.g_devices.map device_t.static → s'.g_devices.length = s.g_devices.length := by
      intro s' h
      simpa using congrArg List.length h
    rw [mqtt_message_callback_eq]
    split
    · exact ⟨rfl, rfl, fun _ _ h _ => h, fun _ => rfl, fun _ => rfl⟩
    · split
      · rename_i ht
        have h := toggle_device_frame s (sscanf_topic topic).2
        exact ⟨hlen _ h.1, h.1, h.2.2.1, fun _ => h.2.1, fun hn => absurd ht hn⟩
      · rename_i ht
        split
        · have h := update_device_value_frame s (sscanf_topic topic).2
            ((cstr (payload.take 127)).drop 6)
          exact ⟨hlen _ h.1, h.1, h.2.2.1, fun hn => absurd hn ht, fun _ => h.2.1⟩
        · exact ⟨rfl, rfl, fun _ _ h _ => h, fun _ => rfl, fun _ => rfl⟩
  · intro value
    have h := update_device_value_frame s "temp_sensor".toList value
    exact ⟨by simpa using congrArg List.length h.1, h.1, h.2.2.1, h.2.1⟩
  · intro device_id
    have h := toggle_device_frame s device_id
    exact ⟨h.1, h.2.1, h.2.2.1⟩
  · intro device_id value
    have h := update_device_value_frame s device_id value
    exact ⟨h.1, h.2.1, h.2.2.1⟩

/-- C11, for `toggle` on the kitchen_light control topic in the start-up state with the
session established: the thermostat record (index 2) is the start-up one afterwards. -/
theorem C11_only_is_on_and_value_of_the_addressed_device_change_witness :
    (mqtt_message_callback connected_startup_state
        "home/devices/kitchen_light/control".toList "toggle".toList).state.g_devices[2]? =
      some { id := "thermostat".toList, name := "Thermostat".toList,
             type := "THERMOSTAT".toList, room_id := "living".toList, is_on := true,
             value := "72.0".toList } :=
  ((C11_only_is_on_and_value_of_the_addressed_device_change connected_startup_state).1
    "home/devices/kitchen_light/control".toList "toggle".toList).2.2.1 2 _ rfl (by decide)

/-! ## Publishing a record that fits its arrays -/

theorem publish_device_state_fits {d : device_t} (h : d.fits) :
    publish_device_state true d = [Event.publish (state_topic d.id) (state_record d)] := by
  obtain ⟨h1, h2, h3, h4, h5⟩ := h
  have hr := state_record_length d
  have ht := state_topic_length d.id
  simp only [publish_device_state, snprintf, Bool.not_true, Bool.false_eq_true, if_false]
  rw [List.take_of_length_le (by omega), List.take_of_length_le (by omega)]

/-- C12. For every device whose strings fit the arrays of `device_t`, `publish_device_state`
with the session connected makes exactly one `mqtt_publish`, on the topic
`home/devices/<id>/state`, of the record with the six fields id, name, type, room_id,
is_on, value in this order, `is_on` being written as the word `true` or `false`. -/
theorem C12_published_record_has_six_fields_in_order (d : device_t) (h : d.fits) :
    publish_device_state true d =
      [Event.publish ("home/devices/".toList ++ d.id ++ "/state".toList)
        ("\x7b\"id\":\"".toList ++ d.id ++ "\",\"name\":\"".toList ++ d.name ++
         "\",\"type\":\"".toList ++ d.type ++ "\",\"room_id\":\"".toList ++ d.room_id ++
         "\",\"is_on\":".toList ++ (if d.is_on = true then "true".toList else "false".toList) ++
         ",\"value\":\"".toList ++ d.value ++ "\"\x7d".toList)] := by
  rw [publish_device_state_fits h]
  rfl

/-- C12, for the thermostat record with value `68.5`. -/
theorem C12_published_record_has_six_fields_in_order_witness :
    publish_device_state true
        { id := "thermostat".toList, name := "Thermostat".toList,
          type := "THERMOSTAT".toList, room_id := "living".toList, is_on := true,
          value := "68.5".toList } =
      [Event.publish "home/devices/thermostat/state".toList
        ("\x7b\"id\":\"thermostat\",\"name\":\"Thermostat\",\"type\":\"THERMOSTAT\"," ++
         "\"room_id\":\"living\",\"is_on\":true,\"value\":\"68.5\"\x7d").toList] :=
  C12_published_record_has_six_fields_in_order _ (by decide)

/-! ## The connection flag and the mutation -/

theorem toggle_device_devices_connected (s : State) (device_id : List Char) (b : Bool) :
    (toggle_device { s with g_mqtt_connected := b } device_id).state.g_devices =
      (toggle_device s device_id).state.g_devices := by
  unfold toggle_device
  cases find_device s.g_devices device_id <;> rfl

theorem update_device_value_devices_connected (s : State) (device_id value : List Char)
    (b : Bool) :
    (update_device_value { s with g_mqtt_connected := b } device_id value).state.g_devices =
      (update_device_value s device_id value).state.g_devices := by
  unfold update_device_value
  cases find_device s.g_devices device_id <;> rfl

theorem publishes_toggle_device_disconnected (s : State) (h : s.g_mqtt_connected = false)
    (device_id : List Char) : publishes (toggle_device s device_id).trace = [] := by
  unfold toggle_device
  cases find_device s.g_devices device_id with
  | none => rfl
  | some p => simp only [h, publishes_locked]; rfl

theorem publishes_update_device_value_disconnected (s : State)
    (h : s.g_mqtt_connected = false) (device_id value : List Char) :
    publishes (update_device_value s device_id value).trace = [] := by
  unfold update_device_value
  cases find_device s.g_devices device_id with
  | none => rfl
  | some p => simp only [h, publishes_locked]; rfl

/-- C13. In every state with `g_mqtt_connected` false, an inbound message or a sensor
update publishes nothing and leaves the flag false, and the registry afterwards is the one
the same input produces from the same registry with the flag true. -/
theorem C13_connection_flag_gates_only_the_publish (s : State)
    (h : s.g_mqtt_connected = false) :
    (∀ topic payload : List Char,
      publishes (mqtt_message_callback s topic payload).trace = [] ∧
      (mqtt_message_callback s topic payload).state.g_mqtt_connected = false ∧
      (mqtt_message_callback s topic payload).state.g_devices =
        (mqtt_message_callback { s with g_mqtt_connected := true } topic
          payload).state.g_devices) ∧
    (∀ value : List Char,
      publishes (step s (Input.sensor value)).trace = [] ∧
      (step s (Input.sensor value)).state.g_mqtt_connected = false ∧
      (step s (Input.sensor value)).state.g_devices =
        (step { s with g_mqtt_connected := true } (Input.sensor value)).state.g_devices) := by
  constructor
  · intro topic payload
    rw [mqtt_message_callback_eq, mqtt_message_callback_eq]
    split
    · exact ⟨rfl, h, rfl⟩
    · split
      · exact ⟨publishes_toggle_device_disconnected s h _,
          (toggle_device_frame s _).2.2.2.trans h,
          (toggle_device_devices_connected s _ true).symm⟩
      · split
        · exact ⟨publishes_update_device_value_disconnected s h _ _,
            (update_device_value_frame s _ _).2.2.2.trans h,
            (update_device_value_devices_connected s _ _ true).symm⟩
        · exact ⟨rfl, h, rfl⟩
  · intro value
    exact ⟨publishes_update_device_value_disconnected s h _ _,
      (update_device_value_frame s _ _).2.2.2.trans h,
      (update_device_value_devices_connected s _ _ true).symm⟩

/-- C13, in the start-up state (not connected): `toggle` for kitchen_light and a sensor
reading publish nothing. -/
theorem C13_connection_flag_gates_only_the_publish_witness :
    startup_state.g_mqtt_connected = false ∧
    publishes (mqtt_message_callback startup_state
      "home/devices/kitchen_light/control".toList "toggle".toList).trace = [] ∧
    (mqtt_message_callback startup_state
      "home/devices/kitchen_light/control".toList "toggle".toList).state.g_devices =
      (mqtt_message_callback connected_startup_state
        "home/devices/kitchen_light/control".toList "toggle".toList).state.g_devices ∧
    publishes (step startup_state (Input.sensor "71.5".toList)).trace = [] :=
  have h := C13_connection_flag_gates_only_the_publish startup_state rfl
  ⟨rfl, (h.1 _ _).1, (h.1 _ _).2.2, (h.2 _).1⟩

/-! ## Topics of the registered devices -/

theorem state_topic_injective {a b : List Char} (h : state_topic a = state_topic b) :
    a = b := by
  simpa [state_topic] using h

theorem startup_ids_match_subscription :
    ∀ id ∈ startup_state.ids,
      filter_matches "home/devices/+/control".toList (control_topic id) = true := by
  decide

theorem subscribe_filter_of_mqtt_init {s : State} {filter : List Char}
    (h : Event.subscribe filter ∈ (mqtt_init s OK OK).trace) :
    filter = "home/devices/+/control".toList := by
  have hp : ∀ ds : List device_t, Event.subscribe filter ∉ publish_all true ds := by
    intro ds
    induction ds with
    | nil => simp [publish_all]
    | cons d ds ih => simp [publish_all, publish_device_state, ih]
  have ht : (mqtt_init s OK OK).trace =
      [Event.connect, Event.subscribe "home/devices/+/control".toList, Event.lock] ++
        (publish_all true s.g_devices ++ [Event.unlock]) := by
    simp [mqtt_init]
  rw [ht] at h
  simp [hp] at h
  exact h

/-- C14. For every id of the registry in a reachable state: the id is non-empty, contains
no `/` and has at most 31 bytes; its control topic `home/devices/<id>/control` matches the
filter that `mqtt_init` subscribes to, and the topic scan of the callback returns 1 with
exactly this id; the topic under which `publish_device_state` publishes a device with this
id is exactly `home/devices/<id>/state`, and two ids with the same state topic are equal. -/
theorem C14_topic_round_trip (s : State) (hr : Reachable s) (id : List Char)
    (hid : id ∈ s.ids) :
    (id ≠ [] ∧ '/' ∉ id ∧ id.length ≤ 31) ∧
    (∀ filter : List Char, Event.subscribe filter ∈ (mqtt_init s OK OK).trace →
      filter = "home/devices/+/control".toList ∧
      filter_matches filter ("home/devices/".toList ++ id ++ "/control".toList) = true) ∧
    sscanf_topic ("home/devices/".toList ++ id ++ "/control".toList) = (1, id) ∧
    (∀ d ∈ s.g_devices, d.id = id →
      (publishes (publish_device_state true d)).map Prod.fst =
        ["home/devices/".toList ++ id ++ "/state".toList]) ∧
    (∀ other : List Char,
      "home/devices/".toList ++ other ++ "/state".toList =
        "home/devices/".toList ++ id ++ "/state".toList → other = id) := by
  have hs := wellFormed_of_reachable hr
  have hid0 : id ∈ startup_state.ids := by rwa [← ids_of_wellFormed hs]
  obtain ⟨h1, h2, h3, _⟩ := startup_ids_shape id hid0
  refine ⟨⟨h2, h1, by omega⟩, ?_, sscanf_topic_registered hs hid, ?_, ?_⟩
  · intro filter hf
    have := subscribe_filter_of_mqtt_init hf
    subst this
    exact ⟨rfl, startup_ids_match_subscription id hid0⟩
  · intro d hd hdid
    rw [publish_device_state_whole (static_mem_of_wellFormed hs hd) (hs.2 d hd).1, hdid]
    rfl
  · intro other h
    exact state_topic_injective h

/-- C14, for `front_lock` after a toggle and a successful `mqtt_init`. -/
theorem C14_topic_round_trip_witness :
    sscanf_topic "home/devices/front_lock/control".toList = (1, "front_lock".toList) ∧
    filter_matches "home/devices/+/control".toList
      "home/devices/front_lock/control".toList = true :=
  have h := C14_topic_round_trip
    (run startup_state
      [Input.message "home/devices/front_lock/control".toList "toggle".toList,
       Input.reconnect OK OK])
    (reachable_run Reachable.startup _) "front_lock".toList (by decide)
  ⟨h.2.2.1, (h.2.1 "home/devices/+/control".toList (by decide)).2⟩

/-- Sanity of the filter model: the subscription does not match a state topic, a topic
with a further level, or a topic of another namespace. -/
theorem filter_matches_rejects :
    filter_matches "home/devices/+/control".toList
        "home/devices/kitchen_light/state".toList = false ∧
    filter_matches "home/devices/+/control".toList
        "home/devices/kitchen_light/x/control".toList = false ∧
    filter_matches "home/devices/+/control".toList
        "office/devices/kitchen_light/control".toList = false := by
  decide

/-! ## The connection flag -/

theorem mqtt_message_callback_connected (s : State) (topic payload : List Char) :
    (mqtt_message_callback s topic payload).state.g_mqtt_connected = s.g_mqtt_connected := by
  rw [mqtt_message_callback_eq]
  split
  · rfl
  · split
    · exact (toggle_device_frame s _).2.2.2
    · split
      · exact (update_device_value_frame s _ _).2.2.2
      · rfl

theorem mqtt_process_connected (s : State) (inbound : List (List Char × List Char)) :
    (mqtt_process s inbound).state.g_mqtt_connected = s.g_mqtt_connected := by
  induction inbound generalizing s with
  | nil => rfl
  | cons m rest ih =>
    obtain ⟨topic, payload⟩ := m
    simp only [mqtt_process]
    rw [ih, mqtt_message_callback_connected]

/-- C15 fails on the code: an iteration of the main loop started with `g_mqtt_connected`
true ends with `g_mqtt_connected` true, whatever `mqtt_process` reports and whatever
messages it delivers; at the start-up state with the session established and the report
`-1` the flag stays true. -/
theorem C15_connected_flag_is_never_cleared :
    (main_loop_iteration connected_startup_state [] (-1) OK OK).state.g_mqtt_connected =
      true ∧
    (main_loop_iteration connected_startup_state [] (-1) OK OK).trace = [] ∧
    ∀ (s : State) (inbound : List (List Char × List Char))
      (process_ret connect_ret subscribe_ret : Int), s.g_mqtt_connected = true →
      (main_loop_iteration s inbound process_ret connect_ret
        subscribe_ret).state.g_mqtt_connected = true := by
  refine ⟨rfl, rfl, ?_⟩
  intro s inbound process_ret connect_ret subscribe_ret h
  unfold main_loop_iteration
  rw [if_pos h, mqtt_process_connected, h]

/-- C16. In a state with `g_mqtt_connected` false, a call of `mqtt_init` in which
`mqtt_connect` fails, or succeeds while `mqtt_subscribe` fails, returns the failing call's
code (which is not `OK`), leaves the globals as they are (the flag stays false, the
registry is unchanged) and publishes nothing. -/
theorem C16_failed_mqtt_init_changes_nothing (s : State) (h : s.g_mqtt_connected = false)
    (connect_ret subscribe_ret : Int)
    (hfail : connect_ret ≠ OK ∨ (connect_ret = OK ∧ subscribe_ret ≠ OK)) :
    (mqtt_init s connect_ret subscribe_ret).ret =
      (if connect_ret ≠ OK then connect_ret else subscribe_ret) ∧
    (mqtt_init s connect_ret subscribe_ret).ret ≠ OK ∧
    (mqtt_init s connect_ret subscribe_ret).state = s ∧
    (mqtt_init s connect_ret subscribe_ret).state.g_mqtt_connected = false ∧
    publishes (mqtt_init s connect_ret subscribe_ret).trace = [] := by
  rcases hfail with hc | ⟨hc, hsub⟩
  · have e : mqtt_init s connect_ret subscribe_ret =
        { state := s, trace := [Event.connect], ret := connect_ret } := by
      unfold mqtt_init
      rw [if_pos hc]
    rw [e, if_pos hc]
    exact ⟨rfl, hc, rfl, h, rfl⟩
  · have hc' : ¬ connect_ret ≠ OK := not_not.2 hc
    have e : mqtt_init s connect_ret subscribe_ret =
        { state := s,
          trace := [Event.connect, Event.subscribe "home/devices/+/control".toList],
          ret := subscribe_ret } := by
      unfold mqtt_init
      rw [if_neg hc', if_pos hsub]
    rw [e, if_neg hc']
    exact ⟨rfl, hsub, rfl, h, rfl⟩

/-- C16, in the start-up state: a failed connect (`-1`) and a failed subscribe (`-5`). -/
theorem C16_failed_mqtt_init_changes_nothing_witness :
    (mqtt_init startup_state (-1) OK).ret = -1 ∧
    (mqtt_init startup_state (-1) OK).state = startup_state ∧
    (mqtt_init startup_state OK (-5)).ret = -5 ∧
    (mqtt_init startup_state OK (-5)).state = startup_state ∧
    publishes (mqtt_init startup_state OK (-5)).trace = [] :=
  have h1 := C16_failed_mqtt_init_changes_nothing startup_state rfl (-1) OK
    (Or.inl (by decide))
  have h2 := C16_failed_mqtt_init_changes_nothing startup_state rfl OK (-5)
    (Or.inr ⟨rfl, by decide⟩)
  ⟨h1.1, h1.2.2.1, h2.1, h2.2.2.1, h2.2.2.2.2⟩

/-! ## Sensor feed and `value:` command -/

theorem cstr_append_of_nul_free {a : List Char} (h : NUL ∉ a) (b : List Char) :
    cstr (a ++ b) = a ++ cstr b := by
  induction a with
  | nil => rfl
  | cons c cs ih =>
    have hc : c ≠ NUL := fun e => h (by simp [e])
    have hcs : NUL ∉ cs := fun e => h (by simp [e])
    have := ih hcs
    unfold cstr at this ⊢
    simp [List.takeWhile_cons, hc, this]

theorem strncpy_cstr (v : List Char) (n : Nat) : strncpy (cstr v) n = strncpy v n := by
  unfold strncpy
  rw [cstr_of_nul_free (cstr_nul_free v)]

theorem update_device_value_cstr (s : State) (device_id v : List Char) :
    update_device_value s device_id (cstr v) = update_device_value s device_id v := by
  unfold update_device_value
  simp only [strncpy_cstr]

/-- C17. In every state and for every text `v` of at most 31 bytes, the callback on
`home/devices/temp_sensor/control` with payload `value:` followed by `v` leaves the same
globals and performs the same actions (hence the same publishes) as the sensor thread's
call `update_device_value("temp_sensor", v)`. -/
theorem C17_sensor_update_equals_value_command (s : State) (v : List Char)
    (h : v.length ≤ 31) :
    mqtt_message_callback s "home/devices/temp_sensor/control".toList
        ("value:".toList ++ v) =
      { state := (update_device_value s "temp_sensor".toList v).state,
        trace := (update_device_value s "temp_sensor".toList v).trace } ∧
    step s (Input.message "home/devices/temp_sensor/control".toList ("value:".toList ++ v)) =
      step s (Input.sensor v) := by
  have key : mqtt_message_callback s "home/devices/temp_sensor/control".toList
        ("value:".toList ++ v) =
      { state := (update_device_value s "temp_sensor".toList v).state,
        trace := (update_device_value s "temp_sensor".toList v).trace } := by
    have hscan : sscanf_topic "home/devices/temp_sensor/control".toList =
        (1, "temp_sensor".toList) := by decide
    have hlen : ("value:".toList ++ v).length ≤ 127 := by
      have : "value:".toList.length = 6 := rfl
      rw [List.length_append]
      omega
    have hc : cstr (("value:".toList ++ v).take 127) = "value:".toList ++ cstr v := by
      rw [List.take_of_length_le hlen]
      exact cstr_append_of_nul_free (by decide) v
    have h6 : ("value:".toList ++ cstr v).take 6 = "value:".toList := by
      rw [List.take_append_of_le_length (by decide)]
      rfl
    have hd6 : ("value:".toList ++ cstr v).drop 6 = cstr v := by
      rw [List.drop_append_of_le_length (by decide)]
      rfl
    rw [mqtt_message_callback_eq, hscan, hc, if_neg (by simp),
      if_neg (value_payload_ne_toggle _), if_pos h6, hd6, update_device_value_cstr]
  exact ⟨key, key⟩

/-- C17, for the reading `71.5` in the start-up state with the session established. -/
theorem C17_sensor_update_equals_value_command_witness :
    step connected_startup_state
        (Input.message "home/devices/temp_sensor/control".toList "value:71.5".toList) =
      step connected_startup_state (Input.sensor "71.5".toList) :=
  (C17_sensor_update_equals_value_command connected_startup_state "71.5".toList
    (by decide)).2

/-! ## Lock discipline -/

theorem every_publish_while_locked_publish_all (c : Bool) (ds : List device_t)
    (rest : List Event) :
    every_publish_while_locked true (publish_all c ds ++ rest) =
      every_publish_while_locked true rest := by
  induction ds with
  | nil => rfl
  | cons d ds ih =>
    cases c
    · simpa [publish_all, publish_device_state] using ih
    · simpa [publish_all, publish_device_state, every_publish_while_locked] using ih

theorem every_publish_while_locked_publish_device_state (c : Bool) (d : device_t) :
    every_publish_while_locked false
      ([Event.lock] ++ publish_device_state c d ++ [Event.unlock]) = true := by
  cases c <;> rfl

/-- C18 (amended). In the trace of `toggle_device`, of `update_device_value` and of
`mqtt_init`, for all arguments and in every state, every `mqtt_publish` happens while
`g_devices_mutex` is held: the mutex is taken before the lookup (before the loop in
`mqtt_init`) and released only after the publish, and it is not held when the function
returns. -/
theorem C18_publish_happens_under_the_mutex (s : State) (device_id value : List Char)
    (connect_ret subscribe_ret : Int) :
    every_publish_while_locked false (toggle_device s device_id).trace = true ∧
    every_publish_while_locked false (update_device_value s device_id value).trace = true ∧
    every_publish_while_locked false (mqtt_init s connect_ret subscribe_ret).trace = true := by
  refine ⟨?_, ?_, ?_⟩
  · unfold toggle_device
    split
    · rfl
    · exact every_publish_while_locked_publish_device_state _ _
  · unfold update_device_value
    split
    · rfl
    · exact every_publish_while_locked_publish_device_state _ _
  · unfold mqtt_init
    split
    · rfl
    · split
      · rfl
      · show every_publish_while_locked true
          (publish_all true s.g_devices ++ [Event.unlock]) = true
        rw [every_publish_while_locked_publish_all]
        rfl

/-- C18 as stated fails: in the start-up state with the session established, the traces of
`toggle_device("kitchen_light")`, of `update_device_value("thermostat", "68.5")` and of a
successful `mqtt_init` each contain a publish between `lock` and `unlock`. -/
theorem C18_counterexample_publish_between_lock_and_unlock :
    (toggle_device connected_startup_state "kitchen_light".toList).trace =
      [Event.lock,
       Event.publish "home/devices/kitchen_light/state".toList
         ("\x7b\"id\":\"kitchen_light\",\"name\":\"Kitchen Light\",\"type\":\"LIGHT\"," ++
          "\"room_id\":\"kitchen\",\"is_on\":true,\"value\":\"\"\x7d").toList,
       Event.unlock] ∧
    no_publish_while_locked false
      (toggle_device connected_startup_state "kitchen_light".toList).trace = false ∧
    no_publish_while_locked false
      (update_device_value connected_startup_state "thermostat".toList
        "68.5".toList).trace = false ∧
    no_publish_while_locked false (mqtt_init startup_state OK OK).trace = false := by
  decide

/-! ## Sizes of the published strings -/

/-- C19. In every reachable state every device has `id`, `type`, `room_id` and `value` of at
most 31 bytes and `name` of at most 63 bytes; its record has at most 254 bytes and its
state topic at most 50, so neither `snprintf` of `publish_device_state` truncates and what
is published is the whole record under the whole topic. -/
theorem C19_published_strings_are_never_truncated (s : State) (hr : Reachable s)
    (d : device_t) (hd : d ∈ s.g_devices) :
    (d.id.length ≤ 31 ∧ d.type.length ≤ 31 ∧ d.room_id.length ≤ 31 ∧ d.value.length ≤ 31 ∧
      d.name.length ≤ 63) ∧
    (state_record d).length ≤ 254 ∧ (state_topic d.id).length ≤ 50 ∧
    snprintf 256 (state_record d) = state_record d ∧
    snprintf 128 (state_topic d.id) = state_topic d.id ∧
    publish_device_state true d = [Event.publish (state_topic d.id) (state_record d)] := by
  have hs := wellFormed_of_reachable hr
  have hst := static_mem_of_wellFormed hs hd
  obtain ⟨h1, h2, h3, h4⟩ := startup_static_bounds _ hst
  simp only [device_t.static] at h1 h2 h3 h4
  have hv := (hs.2 d hd).1
  have hrl := state_record_length d
  have htl := state_topic_length d.id
  refine ⟨⟨by omega, by omega, by omega, hv, by omega⟩, by omega, by omega, ?_, ?_,
    publish_device_state_whole hst hv⟩
  · exact List.take_of_length_le (by omega)
  · exact List.take_of_length_le (by omega)

/-- C19, for the thermostat after a value command with a 40-byte text. -/
theorem C19_published_strings_are_never_truncated_witness :
    ∃ d : device_t,
      d ∈ (run connected_startup_state
        [Input.message "home/devices/thermostat/control".toList
          ("value:".toList ++ List.replicate 40 '9')]).g_devices ∧
      d.value = List.replicate 31 '9' ∧
      snprintf 256 (state_record d) = state_record d :=
  ⟨{ id := "thermostat".toList, name := "Thermostat".toList, type := "THERMOSTAT".toList,
     room_id := "living".toList, is_on := true, value := List.replicate 31 '9' },
   by decide, rfl,
   (C19_published_strings_are_never_truncated _
     (reachable_run reachable_connected_startup
       [Input.message "home/devices/thermostat/control".toList
         ("value:".toList ++ List.replicate 40 '9')])
     _ (by decide)).2.2.2.1⟩

/-! ## The record determines the state of the device -/

theorem state_record_id_start (d : device_t) (h : 2 ≤ d.id.length) :
    ((state_record d).drop 7).take 2 = d.id.take 2 := by
  have e : state_record d = "\x7b\"id\":\"".toList ++ (d.id ++
      ("\",\"name\":\"".toList ++ d.name ++
       "\",\"type\":\"".toList ++ d.type ++ "\",\"room_id\":\"".toList ++ d.room_id ++
       "\",\"is_on\":".toList ++ (if d.is_on then "true".toList else "false".toList) ++
       ",\"value\":\"".toList ++ d.value ++ "\"\x7d".toList)) := by
    simp only [state_record, List.append_assoc]
  rw [e, List.drop_append_of_le_length (by decide)]
  have e7 : List.drop 7 "\x7b\"id\":\"".toList = [] := rfl
  rw [e7, List.nil_append, List.take_append_of_le_length h]

theorem startup_ids_start :
    ∀ a ∈ startup_devices.map device_t.static, ∀ b ∈ startup_devices.map device_t.static,
      2 ≤ a.1.length ∧ (a.1.take 2 = b.1.take 2 → a = b) := by
  decide

theorem state_record_tail_injective {b1 b2 : Bool} {v1 v2 : List Char}
    (h : (if b1 then "true".toList else "false".toList) ++ (",\"value\":\"".toList ++
          (v1 ++ "\"\x7d".toList)) =
         (if b2 then "true".toList else "false".toList) ++ (",\"value\":\"".toList ++
          (v2 ++ "\"\x7d".toList))) :
    b1 = b2 ∧ v1 = v2 := by
  cases b1 <;> cases b2
  · simp only [Bool.false_eq_true, if_false, List.append_cancel_left_eq,
      List.append_cancel_right_eq] at h
    exact ⟨rfl, h⟩
  · have := congrArg List.head? h
    simp at this
  · have := congrArg List.head? h
    simp at this
  · simp only [if_true, List.append_cancel_left_eq, List.append_cancel_right_eq] at h
    exact ⟨rfl, h⟩

/-- Two records of start-up devices (with any `is_on` and `value`) that are equal as text
come from devices with the same `id`, `is_on` and `value`. -/
theorem state_record_injective {d1 d2 : device_t}
    (h1 : d1.static ∈ startup_devices.map device_t.static)
    (h2 : d2.static ∈ startup_devices.map device_t.static)
    (h : state_record d1 = state_record d2) :
    d1.id = d2.id ∧ d1.is_on = d2.is_on ∧ d1.value = d2.value := by
  have hs := startup_ids_start _ h1 _ h2
  have hst : d1.static = d2.static := by
    apply hs.2
    have e1 := state_record_id_start d1 hs.1
    have e2 := state_record_id_start d2 (startup_ids_start _ h2 _ h1).1
    simp only [device_t.static] at e1 e2 ⊢
    rw [← e1, ← e2, h]
  obtain ⟨id1, n1, t1, r1, b1, v1⟩ := d1
  obtain ⟨id2, n2, t2, r2, b2, v2⟩ := d2
  simp only [device_t.static, Prod.mk.injEq] at hst
  obtain ⟨rfl, rfl, rfl, rfl⟩ := hst
  simp only [state_record, List.append_assoc, List.append_cancel_left_eq] at h
  have := state_record_tail_injective h
  exact ⟨rfl, this.1, this.2⟩

/-- C20. For two devices taken from reachable states (the same or different states, the
same or different devices) that differ in `id`, `is_on` or `value`, the payloads published
by `publish_device_state` differ; each payload is the whole record, with the value text
inserted as it is. -/
theorem C20_published_record_determines_the_device_state (s1 s2 : State)
    (hr1 : Reachable s1) (hr2 : Reachable s2) (d1 d2 : device_t)
    (hd1 : d1 ∈ s1.g_devices) (hd2 : d2 ∈ s2.g_devices)
    (hdiff : d1.id ≠ d2.id ∨ d1.is_on ≠ d2.is_on ∨ d1.value ≠ d2.value) :
    published_payloads (publish_device_state true d1) ≠
      published_payloads (publish_device_state true d2) ∧
    published_payloads (publish_device_state true d1) = [state_record d1] ∧
    published_payloads (publish_device_state true d2) = [state_record d2] := by
  have hs1 := wellFormed_of_reachable hr1
  have hs2 := wellFormed_of_reachable hr2
  have hst1 := static_mem_of_wellFormed hs1 hd1
  have hst2 := static_mem_of_wellFormed hs2 hd2
  have e1 : published_payloads (publish_device_state true d1) = [state_record d1] := by
    rw [publish_device_state_whole hst1 (hs1.2 d1 hd1).1]
    rfl
  have e2 : published_payloads (publish_device_state true d2) = [state_record d2] := by
    rw [publish_device_state_whole hst2 (hs2.2 d2 hd2).1]
    rfl
  refine ⟨?_, e1, e2⟩
  rw [e1, e2]
  intro h
  have hrec : state_record d1 = state_record d2 := by simpa using h
  obtain ⟨hi, hb, hv⟩ := state_record_injective hst1 hst2 hrec
  rcases hdiff with hne | hne | hne
  · exact hne hi
  · exact hne hb
  · exact hne hv

/-- C20, for the thermostat with value `1","is_on":false,"value":"2` (set by a remote
command, quotes included) against the thermostat with value `2`. -/
theorem C20_published_record_determines_the_device_state_witness :
    published_payloads (publish_device_state true
        { id := "thermostat".toList, name := "Thermostat".toList,
          type := "THERMOSTAT".toList, room_id := "living".toList, is_on := true,
          value := "1\",\"is_on\":false,\"value\":\"2".toList }) ≠
      published_payloads (publish_device_state true
        { id := "thermostat".toList, name := "Thermostat".toList,
          type := "THERMOSTAT".toList, room_id := "living".toList, is_on := true,
          value := "2".toList }) :=
  (C20_published_record_determines_the_device_state
    (run connected_startup_state
      [Input.message "home/devices/thermostat/control".toList
        "value:1\",\"is_on\":false,\"value\":\"2".toList])
    (run connected_startup_state
      [Input.message "home/devices/thermostat/control".toList "value:2".toList])
    (reachable_run reachable_connected_startup _)
    (reachable_run reachable_connected_startup _)
    _ _ (by decide) (by decide) (by decide)).1

end SmartHome
